import Mathlib

/-!
Verification development for the vibe-draw whiteboard plugin
(`src/frontend/app/lib/improveDrawing.tsx`, `src/frontend/app/lib/edit3DCode.tsx`).

The development shallowly embeds:
  * the JavaScript regular expressions used by `processThreeJsCode`, via a
    small backtracking matcher (`matchSeq`) that mirrors the backtracking
    priority of the JS engine on the pattern constructs actually used
    (literals, single-character classes, greedy and lazy stars over a
    character class, an optional character, multiline `^`/`$` anchors and a
    single lazy capture group);
  * the code sanitizer `processThreeJsCode` itself, over `List Char`;
  * the four promise-based wait functions (`waitForCodeGeneration`,
    `waitForTaskResult`, `waitForImageGeneration`, `waitForCodeEditing`)
    as step functions on an explicit promise/channel state;
  * the orchestrators `vibe3DCode` and `edit3DCode` as pure functions from
    an environment (outcomes of the effectful steps) to an editor-operation
    trace plus an `Except` result.
-/

namespace VibeDraw

/-! ## Character classes (JS semantics)

`isSpaceJS` models the JS `\s` class restricted to the ASCII whitespace
characters (space, tab, newline, carriage return, vertical tab, form feed);
`isWordJS` models `\w` = `[A-Za-z0-9_]`; `isDotJS` models `.` (anything but a
line terminator); `anyCharJS` models `[\s\S]`. -/

def isSpaceJS (c : Char) : Bool :=
  c = ' ' ∨ c = '\t' ∨ c = '\n' ∨ c = '\r' ∨ c = Char.ofNat 11 ∨ c = Char.ofNat 12

def isWordJS (c : Char) : Bool :=
  (('a' ≤ c ∧ c ≤ 'z') ∨ ('A' ≤ c ∧ c ≤ 'Z') ∨ ('0' ≤ c ∧ c ≤ '9') ∨ c = '_')

/-- The JS line terminators: `\n`, `\r`, U+2028 (line separator) and
U+2029 (paragraph separator). `.` matches none of them, and the multiline
`^`/`$` anchors match after/before each of them. -/
def isLineTermJS (c : Char) : Bool :=
  c = '\n' ∨ c = '\r' ∨ c = Char.ofNat 8232 ∨ c = Char.ofNat 8233

def isDotJS (c : Char) : Bool := ¬ isLineTermJS c = true

def anyCharJS (_ : Char) : Bool := true

/-- The single-quote character, written by code point to keep the source ASCII-clean. -/
def squote : Char := Char.ofNat 39

def isQuoteJS (c : Char) : Bool := c = squote ∨ c = '"'

/-! ## A tiny backtracking regex matcher

`RE` covers exactly the constructs appearing in the sanitizer's patterns.
`star greedy f` is `f*` (greedy) or `f*?` (lazy, `greedy = false`);
`grp f` is the lazy capture group `(f*?)`; `optChar f` is `f?` (greedy);
`bol`/`eol` are the multiline `^`/`$` anchors. -/

inductive RE where
  | lit (cs : List Char)
  | cls (f : Char → Bool)
  | star (greedy : Bool) (f : Char → Bool)
  | grp (f : Char → Bool)
  | optChar (f : Char → Bool)
  | bol
  | eol

/-- Result of a match attempt: the end position and the capture span. -/
structure MRes where
  stop : Nat
  cap : Option (Nat × Nat)
deriving DecidableEq, Repr

/-- Does the literal `cs` occur in `s` starting at position `p`? -/
def litAt (s cs : List Char) (p : Nat) : Bool := cs.isPrefixOf (s.drop p)

/-- Does a character satisfying `f` occur at position `p`? -/
def clsAt (s : List Char) (f : Char → Bool) (p : Nat) : Bool :=
  match (s.drop p) with
  | [] => false
  | c :: _ => f c

/-- Length of the maximal run of characters satisfying `f` starting at `p`. -/
def runLen (s : List Char) (f : Char → Bool) (p : Nat) : Nat :=
  ((s.drop p).takeWhile f).length

/-- Multiline `^`: start of input or just after a line terminator. -/
def bolAt (s : List Char) (p : Nat) : Bool :=
  p == 0 || (match s.drop (p - 1) with
             | c :: _ :: _ => isLineTermJS c
             | _ => false)

/-- Multiline `$`: end of input or just before a line terminator. -/
def eolAt (s : List Char) (p : Nat) : Bool :=
  match s.drop p with
  | [] => true
  | c :: _ => isLineTermJS c

/-- First `some` value of `f` over a list of candidates (in order). -/
def firstSome {α β : Type} (f : α → Option β) : List α → Option β
  | [] => none
  | a :: l =>
      match f a with
      | some b => some b
      | none => firstSome f l

/-- Backtracking matcher in continuation-passing style. The continuation
receives the position after the prefix matched so far; the first success in
backtracking-priority order wins, mirroring the JS engine: greedy stars try
longest first, lazy stars shortest first, `f?` tries the character first. -/
def matchSeq (s : List Char) : List RE → Nat → (Nat → Option MRes) → Option MRes
  | [], p, k => k p
  | RE.lit cs :: r, p, k =>
      if litAt s cs p then matchSeq s r (p + cs.length) k else none
  | RE.cls f :: r, p, k =>
      if clsAt s f p then matchSeq s r (p + 1) k else none
  | RE.star g f :: r, p, k =>
      let m := runLen s f p
      let cands := if g then (List.range (m + 1)).reverse else List.range (m + 1)
      firstSome (fun n => matchSeq s r (p + n) k) cands
  | RE.grp f :: r, p, k =>
      let m := runLen s f p
      firstSome
        (fun n => (matchSeq s r (p + n) k).map (fun res => { res with cap := some (p, p + n) }))
        (List.range (m + 1))
  | RE.optChar f :: r, p, k =>
      if clsAt s f p then
        (matchSeq s r (p + 1) k).orElse (fun _ => matchSeq s r p k)
      else matchSeq s r p k
  | RE.bol :: r, p, k => if bolAt s p then matchSeq s r p k else none
  | RE.eol :: r, p, k => if eolAt s p then matchSeq s r p k else none

/-- Try a whole-pattern match starting exactly at position `p`. -/
def matchAt (s : List Char) (pats : List RE) (p : Nat) : Option MRes :=
  matchSeq s pats p (fun q => some ⟨q, none⟩)

/-- Leftmost match at or after position `start` (the JS search order). -/
def findFrom (s : List Char) (pats : List RE) (start : Nat) : Option (Nat × MRes) :=
  firstSome (fun p => (matchAt s pats p).map (fun r => (p, r)))
    (List.range' start (s.length + 1 - start))

/-- `String.prototype.match` without `g`: the first capture of the leftmost match. -/
def capOf (s : List Char) (pats : List RE) : Option (List Char) :=
  (findFrom s pats 0).bind (fun pr => pr.2.cap.map (fun ab => (s.drop ab.1).take (ab.2 - ab.1)))

/-- Worker for global replace: emit text up to each leftmost match, splice in
`repl`, continue after the match (advancing one character on an empty match,
as the JS engine does). The fuel `s.length + 2` is always sufficient because
each iteration advances the position. -/
def replGo (s : List Char) (pats : List RE) (repl : List Char) : Nat → Nat → List Char
  | 0, pos => s.drop pos
  | fuel + 1, pos =>
      match findFrom s pats pos with
      | none => s.drop pos
      | some (mS, r) =>
          if r.stop ≤ mS then
            ((s.drop pos).take (mS - pos)) ++ repl ++ ((s.drop mS).take 1)
              ++ replGo s pats repl fuel (mS + 1)
          else
            ((s.drop pos).take (mS - pos)) ++ repl ++ replGo s pats repl fuel r.stop

/-- `String.prototype.replace` with the `g` flag. -/
def replaceAll (s : List Char) (pats : List RE) (repl : List Char) : List Char :=
  replGo s pats repl (s.length + 2) 0

/-! ## The sanitizer's patterns

Each definition embeds one JS regular expression from `processThreeJsCode`
(identical in `improveDrawing.tsx` lines 510-549 and `edit3DCode.tsx` lines
201-240). `\s+` is embedded as one `\s` character followed by `\s*`, which
produces the same backtracking order (lengths max..1, longest first). In
`codeBlockPattern`, the source's `(?:\w*\s*)?` is embedded as `\w*\s*`: both
operands are nullable, so the optional wrapper only duplicates the final
empty-match alternative and the first-success result is unchanged. -/

/-- Fragment for `\s+`. -/
def wsPlus : List RE := [RE.cls isSpaceJS, RE.star true isSpaceJS]

/-- ```` /```javascript\s*\n([\s\S]*?)```/ ```` -/
def jsPattern : List RE :=
  [RE.lit ("```javascript".toList), RE.star true isSpaceJS, RE.cls (fun c => c = '\n'),
   RE.grp anyCharJS, RE.lit ("```".toList)]

/-- ```` /```(?:\w*\s*)?\n([\s\S]*?)```/ ```` -/
def codeBlockPattern : List RE :=
  [RE.lit ("```".toList), RE.star true isWordJS, RE.star true isSpaceJS,
   RE.cls (fun c => c = '\n'), RE.grp anyCharJS, RE.lit ("```".toList)]

/-- `/<script[^>]*>([\s\S]*?)<\/script>/` -/
def scriptTagPattern : List RE :=
  [RE.lit ("<script".toList), RE.star true (fun c => ¬ c = '>'), RE.cls (fun c => c = '>'),
   RE.grp anyCharJS, RE.lit ("</script>".toList)]

/-- `/^import\s+.*?from\s+['"].*?['"];?\s*$/gm` -/
def importFromPattern : List RE :=
  [RE.bol, RE.lit ("import".toList)] ++ wsPlus ++ [RE.star false isDotJS, RE.lit ("from".toList)]
  ++ wsPlus ++ [RE.cls isQuoteJS, RE.star false isDotJS, RE.cls isQuoteJS,
                RE.optChar (fun c => c = ';'), RE.star true isSpaceJS, RE.eol]

/-- `/^import\s+\*\s+as\s+.*?\s+from\s+['"].*?['"];?\s*$/gm` -/
def importStarAsPattern : List RE :=
  [RE.bol, RE.lit ("import".toList)] ++ wsPlus ++ [RE.lit ("*".toList)] ++ wsPlus
  ++ [RE.lit ("as".toList)] ++ wsPlus ++ [RE.star false isDotJS] ++ wsPlus
  ++ [RE.lit ("from".toList)] ++ wsPlus
  ++ [RE.cls isQuoteJS, RE.star false isDotJS, RE.cls isQuoteJS,
      RE.optChar (fun c => c = ';'), RE.star true isSpaceJS, RE.eol]

/-- `/^import\s+['"].*?['"];?\s*$/gm` -/
def importBarePattern : List RE :=
  [RE.bol, RE.lit ("import".toList)] ++ wsPlus
  ++ [RE.cls isQuoteJS, RE.star false isDotJS, RE.cls isQuoteJS,
      RE.optChar (fun c => c = ';'), RE.star true isSpaceJS, RE.eol]

/-- `/^const\s+.*?\s*=\s*require\(['"].*?['"]\);?\s*$/gm` -/
def constRequirePattern : List RE :=
  [RE.bol, RE.lit ("const".toList)] ++ wsPlus
  ++ [RE.star false isDotJS, RE.star true isSpaceJS, RE.lit ("=".toList),
      RE.star true isSpaceJS, RE.lit ("require(".toList),
      RE.cls isQuoteJS, RE.star false isDotJS, RE.cls isQuoteJS, RE.lit (")".toList),
      RE.optChar (fun c => c = ';'), RE.star true isSpaceJS, RE.eol]

/-- `/import\s+\*\s+as\s+THREE\s+from\s+['"]three['"];?\s*/g` -/
def importThreeStarPattern : List RE :=
  [RE.lit ("import".toList)] ++ wsPlus ++ [RE.lit ("*".toList)] ++ wsPlus
  ++ [RE.lit ("as".toList)] ++ wsPlus ++ [RE.lit ("THREE".toList)] ++ wsPlus
  ++ [RE.lit ("from".toList)] ++ wsPlus
  ++ [RE.cls isQuoteJS, RE.lit ("three".toList), RE.cls isQuoteJS,
      RE.optChar (fun c => c = ';'), RE.star true isSpaceJS]

/-- `/import\s+{\s*OrbitControls\s*}\s+from\s+['"]three\/addons\/controls\/OrbitControls\.js['"];?\s*/g` -/
def importOrbitPattern : List RE :=
  [RE.lit ("import".toList)] ++ wsPlus
  ++ [RE.lit ("\x7b".toList), RE.star true isSpaceJS, RE.lit ("OrbitControls".toList),
      RE.star true isSpaceJS, RE.lit ("\x7d".toList)] ++ wsPlus
  ++ [RE.lit ("from".toList)] ++ wsPlus
  ++ [RE.cls isQuoteJS, RE.lit ("three/addons/controls/OrbitControls.js".toList),
      RE.cls isQuoteJS, RE.optChar (fun c => c = ';'), RE.star true isSpaceJS]

/-- `/import\s+{\s*[^}]*\s*}\s+from\s+['"]three['"];?\s*/g` -/
def importBracesPattern : List RE :=
  [RE.lit ("import".toList)] ++ wsPlus
  ++ [RE.lit ("\x7b".toList), RE.star true isSpaceJS,
      RE.star true (fun c => ¬ c = Char.ofNat 125), RE.star true isSpaceJS,
      RE.lit ("\x7d".toList)] ++ wsPlus
  ++ [RE.lit ("from".toList)] ++ wsPlus
  ++ [RE.cls isQuoteJS, RE.lit ("three".toList), RE.cls isQuoteJS,
      RE.optChar (fun c => c = ';'), RE.star true isSpaceJS]

/-- `/import\s+THREE\s+from\s+['"]three['"];?\s*/g` -/
def importDefaultPattern : List RE :=
  [RE.lit ("import".toList)] ++ wsPlus ++ [RE.lit ("THREE".toList)] ++ wsPlus
  ++ [RE.lit ("from".toList)] ++ wsPlus
  ++ [RE.cls isQuoteJS, RE.lit ("three".toList), RE.cls isQuoteJS,
      RE.optChar (fun c => c = ';'), RE.star true isSpaceJS]

/-- `/THREE\.OrbitControls/g` -/
def threeOrbitPattern : List RE := [RE.lit ("THREE.OrbitControls".toList)]

/-! ## `processThreeJsCode` -/

/-- JS truthiness of `jsMatch && jsMatch[1]`: the match exists and the
captured string is non-empty. -/
def capNE (o : Option (List Char)) : Option (List Char) :=
  match o with
  | some (c :: cs) => some (c :: cs)
  | _ => none

/-- The extraction stage of `processThreeJsCode`: the nested
`if (jsMatch && jsMatch[1]) ... else ...` chain selecting the source text. -/
def extractCode (s : List Char) : List Char :=
  match capNE (capOf s jsPattern) with
  | some c => c
  | none =>
    match capNE (capOf s codeBlockPattern) with
    | some c => c
    | none =>
      match capNE (capOf s scriptTagPattern) with
      | some c => c
      | none => s

/-- `processThreeJsCode` (`improveDrawing.tsx` 510-549 / `edit3DCode.tsx`
201-240): extract the source text, then apply the nine global replaces in
source order. -/
def processThreeJsCode (s : List Char) : List Char :=
  let c0 := extractCode s
  let c1 := replaceAll c0 importFromPattern []
  let c2 := replaceAll c1 importStarAsPattern []
  let c3 := replaceAll c2 importBarePattern []
  let c4 := replaceAll c3 constRequirePattern []
  let c5 := replaceAll c4 importThreeStarPattern []
  let c6 := replaceAll c5 importOrbitPattern []
  let c7 := replaceAll c6 importBracesPattern []
  let c8 := replaceAll c7 importDefaultPattern []
  replaceAll c8 threeOrbitPattern ("OrbitControls".toList)

/-! ## The wait functions

Each wait function wraps a notification channel (SSE `EventSource` or
`WebSocket`) in a `new Promise`. We model the promise/channel pair as an
explicit state and each registered handler as a case of a step function on
incoming events. A JS promise settles at most once (later `resolve`/`reject`
calls are ignored) and `close()` on a closed channel is a no-op; `settle`
and `closeCh` below implement exactly that, while also counting the raw
calls so that theorems can state that non-terminal messages issue none. -/

/-- One field of a parsed JSON notification message. `none` models a missing
field; `some ""` an empty string (both are falsy in JS). -/
structure MsgData where
  status : Option String
  content : Option String
  message : Option String
  errField : Option String
  dataField : Option String
  images : List (String × Option Nat × Option Nat)
deriving DecidableEq, Repr

/-- `a || b` on an optional string (JS: missing and `""` are falsy). -/
def orDefault (o : Option String) (dflt : String) : String :=
  match o with
  | none => dflt
  | some s => if s = "" then dflt else s

/-- `n || 500` on an optional number (JS: missing and `0` are falsy). -/
def orD500 (o : Option Nat) : Nat :=
  match o with
  | some (n + 1) => n + 1
  | _ => 500

/-- JS truthiness of an optional string field. -/
def truthyS (o : Option String) : Bool :=
  match o with
  | none => false
  | some s => ¬ s = ""

/-- How a promise was settled. `rejectedParse` marks a rejection whose value
is the `JSON.parse` exception object rather than an `Error` with a message
taken from the notification. -/
inductive Outcome (α : Type) where
  | resolvedV (v : α)
  | rejectedText (reason : String)
  | rejectedParse
deriving DecidableEq, Repr

/-- Promise + channel + timer state of one wait-function invocation. -/
structure PState (α : Type) where
  result : Option (Outcome α)
  closed : Bool
  timerActive : Bool
  settleCalls : Nat
  closeCalls : Nat
  uncaught : Nat
deriving DecidableEq, Repr

def PState.init (α : Type) : PState α :=
  { result := none, closed := false, timerActive := true,
    settleCalls := 0, closeCalls := 0, uncaught := 0 }

/-- A raw `resolve`/`reject` call: the first one fixes `result`, later ones
are ignored (JS promise semantics); every call is counted. -/
def settle {α : Type} (o : Outcome α) (st : PState α) : PState α :=
  { st with result := match st.result with | some r => some r | none => some o,
            settleCalls := st.settleCalls + 1 }

/-- A raw `close()` call (idempotent on the channel state; counted). -/
def closeCh {α : Type} (st : PState α) : PState α :=
  { st with closed := true, closeCalls := st.closeCalls + 1 }

/-- `cleanup()` of `waitForImageGeneration`/`waitForCodeEditing`:
`clearTimeout` (guarded by the `timeout` variable) then `close()`. -/
def cleanup {α : Type} (st : PState α) : PState α :=
  { closeCh st with timerActive := false }

/-- An event delivered to an `EventSource`. `message`/`complete`/`errorEvt`
carry the parsed JSON payload (`none` = the data does not parse);
`connError` is a connection-level error event (no data). A named
server-sent event of type `error` and a connection error both dispatch to
every listener registered for `"error"`, i.e. first the
`addEventListener('error', ...)` callback, then `onerror`. -/
inductive SSEEvt where
  | message (d : Option MsgData)
  | start
  | complete (d : Option MsgData)
  | errorEvt (d : Option MsgData)
  | connError
deriving DecidableEq, Repr

/-- An event delivered to a `WebSocket`. -/
inductive WSEvt where
  | message (d : Option MsgData)
  | connError
  | opened
  | closedEvt
deriving DecidableEq, Repr

/-! ### `waitForCodeGeneration` (improveDrawing.tsx 381-462, SSE, promise of `{content} | null`) -/

/-- One event-handler dispatch of `waitForCodeGeneration`. -/
def waitForCodeGenerationStep (st : PState (Option String)) : SSEEvt → PState (Option String)
  | SSEEvt.message none =>
      -- onmessage catch: `reject(error)` with the parse error, then close
      closeCh (settle Outcome.rejectedParse st)
  | SSEEvt.message (some d) =>
      if d.status = some "completed" then
        closeCh (settle (Outcome.resolvedV (if truthyS d.content then some (d.content.getD "") else none)) st)
      else if d.status = some "failed" ∨ d.status = some "error" then
        closeCh (settle (Outcome.rejectedText (orDefault d.message "Error generating code")) st)
      else st   -- status update: logged only
  | SSEEvt.start => st
  | SSEEvt.complete none => closeCh (settle Outcome.rejectedParse st)
  | SSEEvt.complete (some d) =>
      closeCh (settle (Outcome.resolvedV (if truthyS d.content then some (d.content.getD "") else none)) st)
  | SSEEvt.errorEvt d =>
      -- addEventListener('error') first, then onerror
      let st1 := match d with
        | some d => closeCh (settle (Outcome.rejectedText (orDefault d.errField "Error generating code")) st)
        | none => closeCh (settle (Outcome.rejectedText "Unknown error in code generation") st)
      closeCh (settle (Outcome.rejectedText "Error with SSE connection") st1)
  | SSEEvt.connError =>
      -- addEventListener('error') parses `undefined` and throws -> generic reject; then onerror
      closeCh (settle (Outcome.rejectedText "Error with SSE connection")
        (closeCh (settle (Outcome.rejectedText "Unknown error in code generation") st)))

def runWaitForCodeGeneration (evs : List SSEEvt) : PState (Option String) :=
  evs.foldl waitForCodeGenerationStep (PState.init _)

/-- The 5-minute `setTimeout` callback: close and reject only if the source
is not already closed (`readyState !== EventSource.CLOSED`). -/
def waitForCodeGenerationTimeout (st : PState (Option String)) : PState (Option String) :=
  if st.closed then st
  else { closeCh (settle (Outcome.rejectedText "Code generation timed out") st) with timerActive := false }

def codeGenerationTimeoutMs : Nat := 300000

/-! ### `waitForTaskResult` (improveDrawing.tsx 464-507, WebSocket, promise of the `data` field) -/

/-- One event-handler dispatch of `waitForTaskResult`. `JSON.parse` is not
guarded here: an unparseable message throws out of the handler and the
promise is left untouched. -/
def waitForTaskResultStep (st : PState (Option String)) : WSEvt → PState (Option String)
  | WSEvt.message none => { st with uncaught := st.uncaught + 1 }
  | WSEvt.message (some d) =>
      if d.status = some "completed" then
        closeCh (settle (Outcome.resolvedV d.dataField) st)
      else if d.status = some "failed" ∨ d.status = some "error" then
        closeCh (settle (Outcome.rejectedText (orDefault d.message "Unknown error occurred")) st)
      else st
  | WSEvt.connError => closeCh (settle (Outcome.rejectedText "Error with WebSocket connection") st)
  | WSEvt.opened => st
  | WSEvt.closedEvt => st

def runWaitForTaskResult (evs : List WSEvt) : PState (Option String) :=
  evs.foldl waitForTaskResultStep (PState.init _)

/-- The 2-minute `setTimeout` callback (guarded by `readyState !== CLOSED`). -/
def waitForTaskResultTimeout (st : PState (Option String)) : PState (Option String) :=
  if st.closed then st
  else { closeCh (settle (Outcome.rejectedText "Task timed out") st) with timerActive := false }

def taskResultTimeoutMs : Nat := 120000

/-! ### `waitForImageGeneration` (improveDrawing.tsx 129-207, SSE, promise of an image or `null`)

This function registers no `onmessage` handler, so default-typed messages are
ignored entirely. -/

/-- The image value the promise resolves with: base64 data plus dimensions
(defaulting to 500 when missing or zero). -/
structure ImgRes where
  image : String
  width : Nat
  height : Nat
deriving DecidableEq, Repr

def waitForImageGenerationStep (st : PState (Option ImgRes)) : SSEEvt → PState (Option ImgRes)
  | SSEEvt.message _ => st
  | SSEEvt.start => st
  | SSEEvt.complete none => cleanup (settle Outcome.rejectedParse st)
  | SSEEvt.complete (some d) =>
      match d.images with
      | [] => cleanup (settle (Outcome.resolvedV none) st)
      | (b64, w, h) :: _ =>
          cleanup (settle (Outcome.resolvedV (some ⟨b64, orD500 w, orD500 h⟩)) st)
  | SSEEvt.errorEvt d =>
      let st1 := match d with
        | some d => cleanup (settle (Outcome.rejectedText (orDefault d.errField "Error generating image")) st)
        | none => cleanup (settle (Outcome.rejectedText "Unknown error in image generation") st)
      cleanup (settle (Outcome.rejectedText "Error with SSE connection") st1)
  | SSEEvt.connError =>
      cleanup (settle (Outcome.rejectedText "Error with SSE connection")
        (cleanup (settle (Outcome.rejectedText "Unknown error in image generation") st)))

def runWaitForImageGeneration (evs : List SSEEvt) : PState (Option ImgRes) :=
  evs.foldl waitForImageGenerationStep (PState.init _)

/-- The 2-minute `setTimeout` callback: fires only if `cleanup` has not
cleared it; it closes the source and rejects. -/
def waitForImageGenerationTimeout (st : PState (Option ImgRes)) : PState (Option ImgRes) :=
  if st.timerActive then
    { closeCh (settle (Outcome.rejectedText "Image generation timed out") st) with timerActive := false }
  else st

def imageGenerationTimeoutMs : Nat := 120000

/-! ### `waitForCodeEditing` (edit3DCode.tsx 131-199, SSE, promise of `{content} | null`)

Structurally identical to `waitForImageGeneration` but resolving with the
`content` field. -/

def waitForCodeEditingStep (st : PState (Option String)) : SSEEvt → PState (Option String)
  | SSEEvt.message _ => st
  | SSEEvt.start => st
  | SSEEvt.complete none => cleanup (settle Outcome.rejectedParse st)
  | SSEEvt.complete (some d) =>
      cleanup (settle (Outcome.resolvedV (if truthyS d.content then some (d.content.getD "") else none)) st)
  | SSEEvt.errorEvt d =>
      let st1 := match d with
        | some d => cleanup (settle (Outcome.rejectedText (orDefault d.errField "Error editing code")) st)
        | none => cleanup (settle (Outcome.rejectedText "Unknown error in code editing") st)
      cleanup (settle (Outcome.rejectedText "Error with SSE connection") st1)
  | SSEEvt.connError =>
      cleanup (settle (Outcome.rejectedText "Error with SSE connection")
        (cleanup (settle (Outcome.rejectedText "Unknown error in code editing") st)))

def runWaitForCodeEditing (evs : List SSEEvt) : PState (Option String) :=
  evs.foldl waitForCodeEditingStep (PState.init _)

def waitForCodeEditingTimeout (st : PState (Option String)) : PState (Option String) :=
  if st.timerActive then
    { closeCh (settle (Outcome.rejectedText "Code editing timed out") st) with timerActive := false }
  else st

def codeEditingTimeoutMs : Nat := 120000

/-! ### Terminal / non-terminal classification

A server message is non-terminal for a wait function when its handler only
logs it; it is terminal when its handler settles the promise. Connection
events and unparseable payloads are excluded: the claims quantify over
sequences of well-formed progress messages followed by one terminal
message. -/

/-- Non-terminal events of `waitForCodeGeneration`: parseable default-typed
messages with a non-terminal status, and `start` events. -/
def cgNonTerminal : SSEEvt → Bool
  | SSEEvt.message (some d) =>
      ¬ (d.status = some "completed" ∨ d.status = some "failed" ∨ d.status = some "error")
  | SSEEvt.start => true
  | _ => false

/-- Terminal events of `waitForCodeGeneration`. -/
def cgTerminal : SSEEvt → Bool
  | SSEEvt.message (some d) =>
      d.status = some "completed" ∨ d.status = some "failed" ∨ d.status = some "error"
  | SSEEvt.complete (some _) => true
  | SSEEvt.errorEvt (some _) => true
  | _ => false

/-- Non-terminal events of `waitForTaskResult`. -/
def trNonTerminal : WSEvt → Bool
  | WSEvt.message (some d) =>
      ¬ (d.status = some "completed" ∨ d.status = some "failed" ∨ d.status = some "error")
  | WSEvt.opened => true
  | _ => false

/-- Terminal events of `waitForTaskResult`. -/
def trTerminal : WSEvt → Bool
  | WSEvt.message (some d) =>
      d.status = some "completed" ∨ d.status = some "failed" ∨ d.status = some "error"
  | _ => false

/-- Non-terminal events of the listener-only SSE waits
(`waitForImageGeneration`, `waitForCodeEditing`): `start` events and all
default-typed messages, which these functions do not even listen for. -/
def lsNonTerminal : SSEEvt → Bool
  | SSEEvt.message _ => true
  | SSEEvt.start => true
  | _ => false

/-- Terminal events of the listener-only SSE waits. -/
def lsTerminal : SSEEvt → Bool
  | SSEEvt.complete (some _) => true
  | SSEEvt.errorEvt (some _) => true
  | _ => false

/-! ## The orchestrators

`vibe3DCode` and `edit3DCode` are embedded as pure functions from an
environment — the outcome of every effectful step (editor queries, the
rasterizer, the HTTP submission, the wait promise) — to the list of
side-effecting editor/network operations they perform, in order, plus an
`Except` carrying either the thrown error's message or normal return. -/

/-- An observable side-effecting operation of an orchestrator run. -/
inductive EOp where
  | createShape (id : Nat) (x y : Int)
  | deleteShape (id : Nat)
  | updateShape (id : Nat)
  | exportImage
  | postJob (endpoint : String)
  | openChannel (kind : String)
deriving DecidableEq, Repr

/-- A shape in the current selection, as the orchestrators inspect it. -/
structure VShape where
  stype : String
deriving DecidableEq, Repr

/-- Environment of one `vibe3DCode` run: the selection, the selection
bounds, the fresh shape id `createShapeId()` would mint, and the outcome of
each effectful step on both the `/api/queue/3d` and `/api/trellis/task`
paths. `blobThrows = some e` means the `getSvgAsImage`/`blobToBase64` stage
throws `e` (e.g. on a null blob); `waitCG`/`waitTR` are the settled outcomes
of the wait promises (`Except.error` = rejection). -/
structure V3Env where
  selectedShapes : List VShape
  boundsMaxX : Int
  boundsMidY : Int
  freshId : Nat
  svgOk : Bool
  blobThrows : Option String
  respOk : Bool
  respDetail : Option String
  respStatusText : String
  waitCG : Except String (Option (List Char))
  trespOk : Bool
  trespDetail : Option String
  trespStatusText : String
  waitTR : Except String (Option String)
deriving Repr

/-- `vibe3DCode(editor, shapeId, thinkingMode)` (improveDrawing.tsx 213-378).
The preview shape is created before the `try` block; `getSvg` returning null
exits with a plain `return`; the rasterization stage sits outside the `try`,
so only errors thrown inside it (submission, wait, content checks) reach the
`catch` that deletes the shape and rethrows. -/
def vibe3DCode (env : V3Env) (shapeIdArg : Option Nat) (thinkingMode : Bool) :
    List EOp × Except String Unit :=
  if env.selectedShapes = [] then ([], Except.error "First select something to make real.")
  else
    let sid := shapeIdArg.getD env.freshId
    let tr0 : List EOp :=
      match shapeIdArg with
      | none => [EOp.createShape env.freshId (env.boundsMaxX + 60) (env.boundsMidY - 180)]
      | some _ => []
    let tr1 := tr0 ++ [EOp.exportImage]
    if ¬ env.svgOk then (tr1, Except.ok ())   -- `if (!svg) { return }`
    else
      match env.blobThrows with
      | some e => (tr1, Except.error e)       -- thrown before the try block: no delete
      | none =>
        if thinkingMode then
          let tr2 := tr1 ++ [EOp.postJob "/api/trellis/task"]
          if ¬ env.trespOk then
            (tr2 ++ [EOp.deleteShape sid],
             Except.error ("API error: " ++ orDefault env.trespDetail env.trespStatusText))
          else
            let tr3 := tr2 ++ [EOp.openChannel "websocket"]
            match env.waitTR with
            | Except.error e => (tr3 ++ [EOp.deleteShape sid], Except.error e)
            | Except.ok _ => (tr3 ++ [EOp.updateShape sid], Except.ok ())
        else
          let tr2 := tr1 ++ [EOp.postJob "/api/queue/3d"]
          if ¬ env.respOk then
            (tr2 ++ [EOp.deleteShape sid],
             Except.error ("API error: " ++ orDefault env.respDetail env.respStatusText))
          else
            let tr3 := tr2 ++ [EOp.openChannel "sse"]
            match env.waitCG with
            | Except.error e => (tr3 ++ [EOp.deleteShape sid], Except.error e)
            | Except.ok none => (tr3 ++ [EOp.deleteShape sid], Except.error "No code was generated")
            | Except.ok (some content) =>
                if content = [] then    -- `generatedCodeData.content` falsy
                  (tr3 ++ [EOp.deleteShape sid], Except.error "No code was generated")
                else
                  let threeJsCode := processThreeJsCode content
                  if threeJsCode.length < 100 then
                    (tr3 ++ [EOp.deleteShape sid],
                     Except.error "Could not generate a 3D model from those wireframes.")
                  else (tr3 ++ [EOp.updateShape sid], Except.ok ())

/-- A shape in `edit3DCode`'s selection: its kind, its id, and (for
`model3d` shapes) the `threeJsCode` prop. -/
structure EShape where
  stype : String
  sid : Nat
  threeJsCode : Option String
deriving DecidableEq, Repr

/-- Environment of one `edit3DCode` run. -/
structure EEnv where
  selectedShapes : List EShape
  svgOk : Bool
  blobOk : Bool
  respOk : Bool
  respDetail : Option String
  respStatusText : String
  waitED : Except String (Option (List Char))
deriving Repr

/-- `edit3DCode(editor, setIsEditing)` (edit3DCode.tsx 6-128). All five
validation checks run before any export or network step; the `catch` block
only logs and rethrows (no compensation), and the `finally` resets the
editing flag (not modelled in the trace). -/
def edit3DCode (env : EEnv) : List EOp × Except String Unit :=
  let sel := env.selectedShapes
  if sel = [] then ([], Except.error "First select shapes for editing.")
  else
    let model3dShapes := sel.filter (fun s => s.stype = "model3d")
    let nonModel3dShapes := sel.filter (fun s => ¬ s.stype = "model3d")
    if model3dShapes = [] then ([], Except.error "First select a 3D model to edit.")
    else if model3dShapes.length > 1 then ([], Except.error "Select only one 3D model at a time.")
    else if nonModel3dShapes = [] then
      ([], Except.error "Select at least one drawing or shape to guide the editing.")
    else
      match model3dShapes with
      | [] => ([], Except.error "First select a 3D model to edit.")  -- unreachable
      | shape :: _ =>
        let tjs := shape.threeJsCode
        if ¬ truthyS tjs ∨ (tjs.getD "").length < 10 then
          ([], Except.error "The selected 3D model does not contain valid code.")
        else
          let tr1 : List EOp := [EOp.exportImage]
          if ¬ env.svgOk then (tr1, Except.error "Could not generate SVG from selected shapes.")
          else if ¬ env.blobOk then (tr1, Except.error "Could not generate image from SVG.")
          else
            let tr2 := tr1 ++ [EOp.postJob "/api/queue/edit"]
            if ¬ env.respOk then
              (tr2, Except.error ("API error: " ++ orDefault env.respDetail env.respStatusText))
            else
              let tr3 := tr2 ++ [EOp.openChannel "sse"]
              match env.waitED with
              | Except.error e => (tr3, Except.error e)
              | Except.ok none => (tr3, Except.error "No code was generated from the edit")
              | Except.ok (some content) =>
                  if content = [] then (tr3, Except.error "No code was generated from the edit")
                  else
                    let edited := processThreeJsCode content
                    if edited.length < 100 then
                      (tr3, Except.error "Could not generate edited 3D model code.")
                    else (tr3 ++ [EOp.updateShape shape.sid], Except.ok ())

/-- Is an operation a `postJob`? (for the no-retry property) -/
def isPostJob : EOp → Bool
  | EOp.postJob _ => true
  | _ => false

/-- Is an operation a `createShape`? -/
def isCreate : EOp → Bool
  | EOp.createShape _ _ _ => true
  | _ => false

/-- A concrete `vibe3DCode` environment for counterexamples: one drawable
shape selected, the encode stage throws. -/
def envBlobFails : V3Env :=
  { selectedShapes := [⟨"draw"⟩], boundsMaxX := 0, boundsMidY := 0, freshId := 7,
    svgOk := true, blobThrows := some "encode failed",
    respOk := true, respDetail := none, respStatusText := "", waitCG := Except.ok none,
    trespOk := true, trespDetail := none, trespStatusText := "", waitTR := Except.ok none }

/-- The same environment but with the SVG export returning null. -/
def envSvgFails : V3Env :=
  { envBlobFails with svgOk := false, blobThrows := none }

deriving instance DecidableEq for Except

/-- An environment whose wait promise rejects. -/
def envWaitFails : V3Env :=
  { envBlobFails with blobThrows := none, waitCG := Except.error "boom" }

/-- A one-line input of the shape `import <x> from "three"`. -/
def importLine (x : List Char) : List Char :=
  "import ".toList ++ x ++ " from \"three\"".toList

/-- Characters of `x` allowed in the universal import-line lemma: no JS
line terminator, no quote, no backtick, no `<`. -/
def plainChar (c : Char) : Bool :=
  ¬ (isLineTermJS c = true ∨ c = '"' ∨ c = squote ∨ c = '`' ∨ c = '<')

/-- An input on which the mid-line global rewrites splice the surrounding
text into a brand-new `import ... from "three"` line: deleting the embedded
`import * as THREE from "three";` joins `imp` and `ort y from "three"`. -/
def spliceInput : List Char :=
  "impimport * as THREE from \"three\";ort y from \"three\"".toList

/-! ## Helper lemmas about the wait-function state machines -/

/-- Folding a step function over events that are all no-ops leaves the state
unchanged. -/
theorem foldl_id_of_all {σ ε : Type} (step : σ → ε → σ) (P : ε → Bool)
    (hid : ∀ st e, P e = true → step st e = st) :
    ∀ (evs : List ε) (st : σ), evs.all P = true → evs.foldl step st = st := by
  intro evs
  induction evs with
  | nil => intro st _; rfl
  | cons e rest ih =>
      intro st h
      rw [List.all_cons, Bool.and_eq_true] at h
      rw [List.foldl_cons, hid st e h.1, ih st h.2]

theorem cg_step_nonterminal (st : PState (Option String)) (e : SSEEvt)
    (h : cgNonTerminal e = true) : waitForCodeGenerationStep st e = st := by
  cases e with
  | message d =>
      cases d with
      | none => simp [cgNonTerminal] at h
      | some d =>
          simp only [cgNonTerminal, decide_eq_true_eq] at h
          push_neg at h
          simp [waitForCodeGenerationStep, h.1, h.2.1, h.2.2]
  | start => rfl
  | complete d => simp [cgNonTerminal] at h
  | errorEvt d => simp [cgNonTerminal] at h
  | connError => simp [cgNonTerminal] at h

theorem tr_step_nonterminal (st : PState (Option String)) (e : WSEvt)
    (h : trNonTerminal e = true) : waitForTaskResultStep st e = st := by
  cases e with
  | message d =>
      cases d with
      | none => simp [trNonTerminal] at h
      | some d =>
          simp only [trNonTerminal, decide_eq_true_eq] at h
          push_neg at h
          simp [waitForTaskResultStep, h.1, h.2.1, h.2.2]
  | connError => simp [trNonTerminal] at h
  | opened => rfl
  | closedEvt => rfl

theorem img_step_nonterminal (st : PState (Option ImgRes)) (e : SSEEvt)
    (h : lsNonTerminal e = true) : waitForImageGenerationStep st e = st := by
  cases e with
  | message d => rfl
  | start => rfl
  | complete d => simp [lsNonTerminal] at h
  | errorEvt d => simp [lsNonTerminal] at h
  | connError => simp [lsNonTerminal] at h

theorem ed_step_nonterminal (st : PState (Option String)) (e : SSEEvt)
    (h : lsNonTerminal e = true) : waitForCodeEditingStep st e = st := by
  cases e with
  | message d => rfl
  | start => rfl
  | complete d => simp [lsNonTerminal] at h
  | errorEvt d => simp [lsNonTerminal] at h
  | connError => simp [lsNonTerminal] at h

theorem run_cg_nonterminal (evs : List SSEEvt) (h : evs.all cgNonTerminal = true) :
    runWaitForCodeGeneration evs = PState.init _ :=
  foldl_id_of_all _ _ cg_step_nonterminal evs _ h

theorem run_tr_nonterminal (evs : List WSEvt) (h : evs.all trNonTerminal = true) :
    runWaitForTaskResult evs = PState.init _ :=
  foldl_id_of_all _ _ tr_step_nonterminal evs _ h

theorem run_img_nonterminal (evs : List SSEEvt) (h : evs.all lsNonTerminal = true) :
    runWaitForImageGeneration evs = PState.init _ :=
  foldl_id_of_all _ _ img_step_nonterminal evs _ h

theorem run_ed_nonterminal (evs : List SSEEvt) (h : evs.all lsNonTerminal = true) :
    runWaitForCodeEditing evs = PState.init _ :=
  foldl_id_of_all _ _ ed_step_nonterminal evs _ h

theorem cg_terminal_settles (t : SSEEvt) (h : cgTerminal t = true) :
    (waitForCodeGenerationStep (PState.init _) t).result.isSome = true ∧
    (waitForCodeGenerationStep (PState.init _) t).closed = true := by
  cases t with
  | message d =>
      cases d with
      | none => simp [cgTerminal] at h
      | some d =>
          simp only [cgTerminal, decide_eq_true_eq] at h
          rcases h with h | h | h <;>
            simp [waitForCodeGenerationStep, h, settle, closeCh, PState.init]
  | start => simp [cgTerminal] at h
  | complete d =>
      cases d with
      | none => simp [cgTerminal] at h
      | some d => simp [waitForCodeGenerationStep, settle, closeCh, PState.init]
  | errorEvt d =>
      cases d with
      | none => simp [cgTerminal] at h
      | some d => simp [waitForCodeGenerationStep, settle, closeCh, PState.init]
  | connError => simp [cgTerminal] at h

theorem tr_terminal_settles (t : WSEvt) (h : trTerminal t = true) :
    (waitForTaskResultStep (PState.init _) t).result.isSome = true ∧
    (waitForTaskResultStep (PState.init _) t).closed = true := by
  cases t with
  | message d =>
      cases d with
      | none => simp [trTerminal] at h
      | some d =>
          simp only [trTerminal, decide_eq_true_eq] at h
          rcases h with h | h | h <;>
            simp [waitForTaskResultStep, h, settle, closeCh, PState.init]
  | connError => simp [trTerminal] at h
  | opened => simp [trTerminal] at h
  | closedEvt => simp [trTerminal] at h

theorem img_terminal_settles (t : SSEEvt) (h : lsTerminal t = true) :
    (waitForImageGenerationStep (PState.init _) t).result.isSome = true ∧
    (waitForImageGenerationStep (PState.init _) t).closed = true := by
  cases t with
  | message d => simp [lsTerminal] at h
  | start => simp [lsTerminal] at h
  | complete d =>
      cases d with
      | none => simp [lsTerminal] at h
      | some d =>
          cases hi : d.images with
          | nil => simp [waitForImageGenerationStep, hi, settle, cleanup, closeCh, PState.init]
          | cons i rest =>
              obtain ⟨b, w, hgt⟩ := i
              simp [waitForImageGenerationStep, hi, settle, cleanup, closeCh, PState.init]
  | errorEvt d =>
      cases d with
      | none => simp [lsTerminal] at h
      | some d => simp [waitForImageGenerationStep, settle, cleanup, closeCh, PState.init]
  | connError => simp [lsTerminal] at h

theorem ed_terminal_settles (t : SSEEvt) (h : lsTerminal t = true) :
    (waitForCodeEditingStep (PState.init _) t).result.isSome = true ∧
    (waitForCodeEditingStep (PState.init _) t).closed = true := by
  cases t with
  | message d => simp [lsTerminal] at h
  | start => simp [lsTerminal] at h
  | complete d =>
      cases d with
      | none => simp [lsTerminal] at h
      | some d => simp [waitForCodeEditingStep, settle, cleanup, closeCh, PState.init]
  | errorEvt d =>
      cases d with
      | none => simp [lsTerminal] at h
      | some d => simp [waitForCodeEditingStep, settle, cleanup, closeCh, PState.init]
  | connError => simp [lsTerminal] at h

/-- C1: for every reachable message sequence consisting of non-terminal
progress/status messages followed by one terminal message, each of the four
wait functions settles its promise exactly once and its channel goes from
open to closed exactly once: the non-terminal prefix issues no
`resolve`/`reject` and no `close()` call at all (the promise is still
pending, the channel still open), and the terminal message leaves the
promise settled and the channel closed. (Settling and closing are
idempotent, as in JS: a promise records only its first settlement and
`close()` on a closed channel is a no-op.) -/
theorem claim1_wait_settles_once_closes_once :
    (∀ (pre : List SSEEvt) (t : SSEEvt),
      pre.all cgNonTerminal = true → cgTerminal t = true →
      ((runWaitForCodeGeneration pre).result = none ∧
       (runWaitForCodeGeneration pre).closed = false ∧
       (runWaitForCodeGeneration pre).settleCalls = 0 ∧
       (runWaitForCodeGeneration pre).closeCalls = 0) ∧
      ((runWaitForCodeGeneration (pre ++ [t])).result.isSome = true ∧
       (runWaitForCodeGeneration (pre ++ [t])).closed = true)) ∧
    (∀ (pre : List WSEvt) (t : WSEvt),
      pre.all trNonTerminal = true → trTerminal t = true →
      ((runWaitForTaskResult pre).result = none ∧
       (runWaitForTaskResult pre).closed = false ∧
       (runWaitForTaskResult pre).settleCalls = 0 ∧
       (runWaitForTaskResult pre).closeCalls = 0) ∧
      ((runWaitForTaskResult (pre ++ [t])).result.isSome = true ∧
       (runWaitForTaskResult (pre ++ [t])).closed = true)) ∧
    (∀ (pre : List SSEEvt) (t : SSEEvt),
      pre.all lsNonTerminal = true → lsTerminal t = true →
      ((runWaitForImageGeneration pre).result = none ∧
       (runWaitForImageGeneration pre).closed = false ∧
       (runWaitForImageGeneration pre).settleCalls = 0 ∧
       (runWaitForImageGeneration pre).closeCalls = 0) ∧
      ((runWaitForImageGeneration (pre ++ [t])).result.isSome = true ∧
       (runWaitForImageGeneration (pre ++ [t])).closed = true)) ∧
    (∀ (pre : List SSEEvt) (t : SSEEvt),
      pre.all lsNonTerminal = true → lsTerminal t = true →
      ((runWaitForCodeEditing pre).result = none ∧
       (runWaitForCodeEditing pre).closed = false ∧
       (runWaitForCodeEditing pre).settleCalls = 0 ∧
       (runWaitForCodeEditing pre).closeCalls = 0) ∧
      ((runWaitForCodeEditing (pre ++ [t])).result.isSome = true ∧
       (runWaitForCodeEditing (pre ++ [t])).closed = true)) := by
  refine ⟨?_, ?_, ?_, ?_⟩
  · intro pre t hpre ht
    have hr := run_cg_nonterminal pre hpre
    have hfull : runWaitForCodeGeneration (pre ++ [t])
        = waitForCodeGenerationStep (PState.init _) t := by
      unfold runWaitForCodeGeneration at hr ⊢
      rw [List.foldl_append, hr]
      rfl
    refine ⟨by rw [hr]; exact ⟨rfl, rfl, rfl, rfl⟩, ?_⟩
    rw [hfull]
    exact cg_terminal_settles t ht
  · intro pre t hpre ht
    have hr := run_tr_nonterminal pre hpre
    have hfull : runWaitForTaskResult (pre ++ [t])
        = waitForTaskResultStep (PState.init _) t := by
      unfold runWaitForTaskResult at hr ⊢
      rw [List.foldl_append, hr]
      rfl
    refine ⟨by rw [hr]; exact ⟨rfl, rfl, rfl, rfl⟩, ?_⟩
    rw [hfull]
    exact tr_terminal_settles t ht
  · intro pre t hpre ht
    have hr := run_img_nonterminal pre hpre
    have hfull : runWaitForImageGeneration (pre ++ [t])
        = waitForImageGenerationStep (PState.init _) t := by
      unfold runWaitForImageGeneration at hr ⊢
      rw [List.foldl_append, hr]
      rfl
    refine ⟨by rw [hr]; exact ⟨rfl, rfl, rfl, rfl⟩, ?_⟩
    rw [hfull]
    exact img_terminal_settles t ht
  · intro pre t hpre ht
    have hr := run_ed_nonterminal pre hpre
    have hfull : runWaitForCodeEditing (pre ++ [t])
        = waitForCodeEditingStep (PState.init _) t := by
      unfold runWaitForCodeEditing at hr ⊢
      rw [List.foldl_append, hr]
      rfl
    refine ⟨by rw [hr]; exact ⟨rfl, rfl, rfl, rfl⟩, ?_⟩
    rw [hfull]
    exact ed_terminal_settles t ht

/-- Witness for C1: a queued-status progress message followed by a completed
message, run through each wait function. -/
theorem claim1_wait_settles_once_closes_once_witness :
    (runWaitForCodeGeneration
      [SSEEvt.message (some ⟨some "queued", none, none, none, none, []⟩),
       SSEEvt.message (some ⟨some "completed", some "c", none, none, none, []⟩)]).result.isSome
      = true ∧
    (runWaitForTaskResult
      [WSEvt.message (some ⟨some "queued", none, none, none, none, []⟩),
       WSEvt.message (some ⟨some "completed", none, none, none, some "url", []⟩)]).result.isSome
      = true ∧
    (runWaitForImageGeneration
      [SSEEvt.start, SSEEvt.complete (some ⟨none, none, none, none, none, [("b", some 3, some 4)]⟩)]).closed
      = true ∧
    (runWaitForCodeEditing
      [SSEEvt.start, SSEEvt.complete (some ⟨none, some "c", none, none, none, []⟩)]).closed
      = true := by
  have h := claim1_wait_settles_once_closes_once
  refine ⟨?_, ?_, ?_, ?_⟩
  · exact ((h.1 [SSEEvt.message (some ⟨some "queued", none, none, none, none, []⟩)]
      (SSEEvt.message (some ⟨some "completed", some "c", none, none, none, []⟩))
      (by decide) (by decide)).2).1
  · exact ((h.2.1 [WSEvt.message (some ⟨some "queued", none, none, none, none, []⟩)]
      (WSEvt.message (some ⟨some "completed", none, none, none, some "url", []⟩))
      (by decide) (by decide)).2).1
  · exact ((h.2.2.1 [SSEEvt.start]
      (SSEEvt.complete (some ⟨none, none, none, none, none, [("b", some 3, some 4)]⟩))
      (by decide) (by decide)).2).2
  · exact ((h.2.2.2 [SSEEvt.start]
      (SSEEvt.complete (some ⟨none, some "c", none, none, none, []⟩))
      (by decide) (by decide)).2).2

/-- C4: in a run where only non-terminal messages have arrived when the
fixed timeout fires, each wait function rejects its promise with its timeout
error and closes the channel; the bound is 120000 ms (2 minutes) for the
image-generation and edit jobs and 300000 ms (5 minutes) for the scene-code
job (the Trellis task wait also uses 120000 ms). -/
theorem claim4_timeout_rejects_and_closes :
    (∀ evs : List SSEEvt, evs.all cgNonTerminal = true →
      (waitForCodeGenerationTimeout (runWaitForCodeGeneration evs)).result
          = some (Outcome.rejectedText "Code generation timed out") ∧
      (waitForCodeGenerationTimeout (runWaitForCodeGeneration evs)).closed = true) ∧
    (∀ evs : List WSEvt, evs.all trNonTerminal = true →
      (waitForTaskResultTimeout (runWaitForTaskResult evs)).result
          = some (Outcome.rejectedText "Task timed out") ∧
      (waitForTaskResultTimeout (runWaitForTaskResult evs)).closed = true) ∧
    (∀ evs : List SSEEvt, evs.all lsNonTerminal = true →
      (waitForImageGenerationTimeout (runWaitForImageGeneration evs)).result
          = some (Outcome.rejectedText "Image generation timed out") ∧
      (waitForImageGenerationTimeout (runWaitForImageGeneration evs)).closed = true) ∧
    (∀ evs : List SSEEvt, evs.all lsNonTerminal = true →
      (waitForCodeEditingTimeout (runWaitForCodeEditing evs)).result
          = some (Outcome.rejectedText "Code editing timed out") ∧
      (waitForCodeEditingTimeout (runWaitForCodeEditing evs)).closed = true) ∧
    imageGenerationTimeoutMs = 120000 ∧ codeEditingTimeoutMs = 120000 ∧
    codeGenerationTimeoutMs = 300000 ∧ taskResultTimeoutMs = 120000 := by
  refine ⟨?_, ?_, ?_, ?_, rfl, rfl, rfl, rfl⟩
  · intro evs h
    rw [run_cg_nonterminal evs h]
    exact ⟨rfl, rfl⟩
  · intro evs h
    rw [run_tr_nonterminal evs h]
    exact ⟨rfl, rfl⟩
  · intro evs h
    rw [run_img_nonterminal evs h]
    exact ⟨rfl, rfl⟩
  · intro evs h
    rw [run_ed_nonterminal evs h]
    exact ⟨rfl, rfl⟩

/-- Witness for C4: a single progress message, then the timer fires, in each
wait function. -/
theorem claim4_timeout_rejects_and_closes_witness :
    (waitForCodeGenerationTimeout (runWaitForCodeGeneration
        [SSEEvt.message (some ⟨some "queued", none, none, none, none, []⟩)])).result
      = some (Outcome.rejectedText "Code generation timed out") ∧
    (waitForTaskResultTimeout (runWaitForTaskResult
        [WSEvt.message (some ⟨some "queued", none, none, none, none, []⟩)])).result
      = some (Outcome.rejectedText "Task timed out") ∧
    (waitForImageGenerationTimeout (runWaitForImageGeneration [SSEEvt.start])).result
      = some (Outcome.rejectedText "Image generation timed out") ∧
    (waitForCodeEditingTimeout (runWaitForCodeEditing [SSEEvt.start])).result
      = some (Outcome.rejectedText "Code editing timed out") := by
  have h := claim4_timeout_rejects_and_closes
  exact ⟨(h.1 _ (by decide)).1, (h.2.1 _ (by decide)).1,
         (h.2.2.1 _ (by decide)).1, (h.2.2.2.1 _ (by decide)).1⟩

/-- C5 counterexample: the claim states that a message that cannot be parsed
makes the wait protocol reject with a generic reason. In `waitForTaskResult`
the `JSON.parse` call is not guarded by any try/catch: on an unparseable
message the handler throws, the promise is neither resolved nor rejected
(result is still `none`), and the channel stays open. -/
theorem claim5_counterexample_unparsed_not_rejected :
    (runWaitForTaskResult [WSEvt.message none]).result = none ∧
    (runWaitForTaskResult [WSEvt.message none]).closed = false ∧
    (runWaitForTaskResult [WSEvt.message none]).uncaught = 1 := by
  exact ⟨rfl, rfl, rfl⟩

/-- C5 (amended): for every message with status `"failed"` or `"error"`
carrying a non-empty `message` field, `waitForCodeGeneration` and
`waitForTaskResult` reject with an error whose text equals that field. When
a message cannot be parsed, `waitForCodeGeneration` rejects with the parse
error (a generic reason, not text from the message) and closes the channel,
but `waitForTaskResult` does not reject at all: its handler throws and the
promise stays pending. -/
theorem claim5_failed_rejects_with_message_text :
    (∀ (d : MsgData) (m : String), ¬ m = "" → d.message = some m →
      (d.status = some "failed" ∨ d.status = some "error") →
      (runWaitForCodeGeneration [SSEEvt.message (some d)]).result
          = some (Outcome.rejectedText m) ∧
      (runWaitForTaskResult [WSEvt.message (some d)]).result
          = some (Outcome.rejectedText m)) ∧
    ((runWaitForCodeGeneration [SSEEvt.message none]).result
        = some Outcome.rejectedParse ∧
     (runWaitForCodeGeneration [SSEEvt.message none]).closed = true) ∧
    ((runWaitForTaskResult [WSEvt.message none]).result = none ∧
     (runWaitForTaskResult [WSEvt.message none]).uncaught = 1) := by
  refine ⟨?_, ⟨rfl, rfl⟩, ⟨rfl, rfl⟩⟩
  intro d m hm hmsg hst
  rcases hst with h | h <;>
    constructor <;>
      simp [runWaitForCodeGeneration, runWaitForTaskResult,
            waitForCodeGenerationStep, waitForTaskResultStep,
            h, hmsg, orDefault, hm, settle, closeCh, PState.init]

/-- Witness for C5 (amended): a failed message with `message: "boom"`. -/
theorem claim5_failed_rejects_with_message_text_witness :
    (runWaitForCodeGeneration
        [SSEEvt.message (some ⟨some "failed", none, some "boom", none, none, []⟩)]).result
      = some (Outcome.rejectedText "boom") ∧
    (runWaitForTaskResult
        [WSEvt.message (some ⟨some "failed", none, some "boom", none, none, []⟩)]).result
      = some (Outcome.rejectedText "boom") :=
  claim5_failed_rejects_with_message_text.1
    ⟨some "failed", none, some "boom", none, none, []⟩ "boom"
    (by decide) rfl (Or.inl rfl)

/-- C8: a `"completed"` message with a non-empty payload resolves the wait
promise with that payload, and a completed message with an empty or absent
payload resolves it with the explicit no-result value `null` (modelled
`none`) rather than rejecting. Shown for `waitForCodeGeneration` (both its
`onmessage` path and its legacy `complete`-listener path, payload field
`content`), for `waitForCodeEditing` (`content`), and for
`waitForImageGeneration` (`images`, resolving with the first image and its
dimensions, which default to 500 when absent or zero). -/
theorem claim8_completed_resolves_payload_or_null :
    (∀ (d : MsgData) (c : String), d.status = some "completed" →
      (d.content = some c → ¬ c = "" →
        (runWaitForCodeGeneration [SSEEvt.message (some d)]).result
            = some (Outcome.resolvedV (some c))) ∧
      ((d.content = none ∨ d.content = some "") →
        (runWaitForCodeGeneration [SSEEvt.message (some d)]).result
            = some (Outcome.resolvedV none))) ∧
    (∀ (d : MsgData) (c : String),
      (d.content = some c → ¬ c = "" →
        (runWaitForCodeGeneration [SSEEvt.complete (some d)]).result
            = some (Outcome.resolvedV (some c)) ∧
        (runWaitForCodeEditing [SSEEvt.complete (some d)]).result
            = some (Outcome.resolvedV (some c))) ∧
      ((d.content = none ∨ d.content = some "") →
        (runWaitForCodeGeneration [SSEEvt.complete (some d)]).result
            = some (Outcome.resolvedV none) ∧
        (runWaitForCodeEditing [SSEEvt.complete (some d)]).result
            = some (Outcome.resolvedV none))) ∧
    (∀ (d : MsgData) (b : String) (w h : Option Nat) (rest : List (String × Option Nat × Option Nat)),
      (d.images = (b, w, h) :: rest →
        (runWaitForImageGeneration [SSEEvt.complete (some d)]).result
            = some (Outcome.resolvedV (some ⟨b, orD500 w, orD500 h⟩))) ∧
      (d.images = [] →
        (runWaitForImageGeneration [SSEEvt.complete (some d)]).result
            = some (Outcome.resolvedV none))) := by
  refine ⟨?_, ?_, ?_⟩
  · intro d c hst
    constructor
    · intro hc hne
      simp [runWaitForCodeGeneration, waitForCodeGenerationStep, hst, truthyS, hc, hne,
            settle, closeCh, PState.init]
    · intro hc
      rcases hc with hc | hc <;>
        simp [runWaitForCodeGeneration, waitForCodeGenerationStep, hst, truthyS, hc,
              settle, closeCh, PState.init]
  · intro d c
    constructor
    · intro hc hne
      constructor <;>
        simp [runWaitForCodeGeneration, runWaitForCodeEditing,
              waitForCodeGenerationStep, waitForCodeEditingStep, truthyS, hc, hne,
              settle, closeCh, cleanup, PState.init]
    · intro hc
      rcases hc with hc | hc <;> constructor <;>
        simp [runWaitForCodeGeneration, runWaitForCodeEditing,
              waitForCodeGenerationStep, waitForCodeEditingStep, truthyS, hc,
              settle, closeCh, cleanup, PState.init]
  · intro d b w h rest
    constructor
    · intro hi
      simp [runWaitForImageGeneration, waitForImageGenerationStep, hi,
            settle, cleanup, closeCh, PState.init]
    · intro hi
      simp [runWaitForImageGeneration, waitForImageGenerationStep, hi,
            settle, cleanup, closeCh, PState.init]

/-- Witness for C8: a completed message with content `"code"`, one without
content, and a completed image message with one image. -/
theorem claim8_completed_resolves_payload_or_null_witness :
    (runWaitForCodeGeneration
        [SSEEvt.message (some ⟨some "completed", some "code", none, none, none, []⟩)]).result
      = some (Outcome.resolvedV (some "code")) ∧
    (runWaitForCodeGeneration
        [SSEEvt.message (some ⟨some "completed", none, none, none, none, []⟩)]).result
      = some (Outcome.resolvedV none) ∧
    (runWaitForImageGeneration
        [SSEEvt.complete (some ⟨none, none, none, none, none, [("b64", none, some 0)]⟩)]).result
      = some (Outcome.resolvedV (some ⟨"b64", 500, 500⟩)) := by
  have h := claim8_completed_resolves_payload_or_null
  refine ⟨?_, ?_, ?_⟩
  · exact (h.1 ⟨some "completed", some "code", none, none, none, []⟩ "code" rfl).1 rfl (by decide)
  · exact (h.1 ⟨some "completed", none, none, none, none, []⟩ "" rfl).2 (Or.inl rfl)
  · exact (h.2.2 ⟨none, none, none, none, none, [("b64", none, some 0)]⟩ "b64" none (some 0) []).1 rfl

/-- C2 counterexample: the rasterization stage of `vibe3DCode` sits outside
the `try` block. If encoding throws, the error propagates without deleting
the just-created preview shape; and if `getSvg` returns null the function
returns silently, leaving the empty placeholder shape behind with no error
at all. -/
theorem claim2_counterexample_raster_error_leaves_shape :
    ((vibe3DCode envBlobFails none false).2 = Except.error "encode failed" ∧
     EOp.createShape 7 60 (-180) ∈ (vibe3DCode envBlobFails none false).1 ∧
     ¬ EOp.deleteShape 7 ∈ (vibe3DCode envBlobFails none false).1) ∧
    ((vibe3DCode envSvgFails none false).2 = Except.ok () ∧
     EOp.createShape 7 60 (-180) ∈ (vibe3DCode envSvgFails none false).1 ∧
     ¬ EOp.deleteShape 7 ∈ (vibe3DCode envSvgFails none false).1) := by
  decide

/-- C2 (amended): once rasterization has succeeded (the SVG export produced
an image and encoding did not throw), every error raised in the
submit/wait/content chain of `vibe3DCode` deletes the targeted preview
shape and is re-raised to the caller, and no retry is ever attempted (at
most one job submission per run). Errors or null results in the
rasterization stage itself, however, occur before the `try` block: a null
SVG makes the function return silently and an encode error propagates, in
both cases leaving the created preview shape in place. -/
theorem claim2_submit_wait_errors_delete_shape :
    (∀ (env : V3Env) (arg : Option Nat) (tm : Bool) (e : String),
      ¬ env.selectedShapes = [] → env.svgOk = true → env.blobThrows = none →
      (vibe3DCode env arg tm).2 = Except.error e →
      EOp.deleteShape (arg.getD env.freshId) ∈ (vibe3DCode env arg tm).1) ∧
    (∀ (env : V3Env) (arg : Option Nat) (tm : Bool),
      ((vibe3DCode env arg tm).1.countP isPostJob) ≤ 1) ∧
    (∀ (env : V3Env) (tm : Bool),
      ¬ env.selectedShapes = [] → env.svgOk = false →
      (vibe3DCode env none tm).2 = Except.ok () ∧
      EOp.createShape env.freshId (env.boundsMaxX + 60) (env.boundsMidY - 180)
        ∈ (vibe3DCode env none tm).1 ∧
      (∀ i, ¬ EOp.deleteShape i ∈ (vibe3DCode env none tm).1)) := by
  have hOkOrDel : ∀ (env : V3Env) (arg : Option Nat) (tm : Bool),
      ¬ env.selectedShapes = [] → env.svgOk = true → env.blobThrows = none →
      (vibe3DCode env arg tm).2 = Except.ok () ∨
      EOp.deleteShape (arg.getD env.freshId) ∈ (vibe3DCode env arg tm).1 := by
    intro env arg tm hsel hsvg hblob
    simp only [vibe3DCode, if_neg hsel, hsvg, hblob]
    cases tm <;>
      simp only [Bool.not_true, Bool.false_eq_true, if_false, if_true, ite_true, ite_false] <;>
      (repeat' split) <;> simp [List.mem_append]
  refine ⟨?_, ?_, ?_⟩
  · intro env arg tm e hsel hsvg hblob herr
    rcases hOkOrDel env arg tm hsel hsvg hblob with h | h
    · rw [herr] at h; exact absurd h (by simp)
    · exact h
  · intro env arg tm
    simp only [vibe3DCode]
    rcases arg with _ | a <;> cases tm <;>
      (repeat' split) <;> simp [List.countP_append, List.countP_cons, List.countP_nil, isPostJob]
  · intro env tm hsel hsvg
    simp only [vibe3DCode, if_neg hsel, hsvg]
    simp [List.mem_append]

/-- Witness for C2 (amended): a rejected wait promise deletes the created
preview shape; rasterization failure leaves it in place. -/
theorem claim2_submit_wait_errors_delete_shape_witness :
    EOp.deleteShape 7 ∈ (vibe3DCode envWaitFails none false).1 ∧
    ¬ EOp.deleteShape 7 ∈ (vibe3DCode envSvgFails none false).1 := by
  constructor
  · exact claim2_submit_wait_errors_delete_shape.1 envWaitFails none false "boom"
      (by decide) rfl rfl (by decide)
  · exact ((claim2_submit_wait_errors_delete_shape.2.2 envSvgFails false
      (by decide) rfl).2.2) 7

/-- C3: when the remote submission endpoint answers with a non-OK status,
`vibe3DCode` throws `"API error: <detail or statusText>"` from inside the
`try` block: the wait function is never called, so no notification channel
(SSE or WebSocket) is ever opened, and the `catch` deletes the preview
shape the run created. Holds on both the `/api/queue/3d` path and the
`/api/trellis/task` (thinking-mode) path. -/
theorem claim3_non_ok_rejects_before_channel :
    ∀ (env : V3Env) (arg : Option Nat) (tm : Bool),
      ¬ env.selectedShapes = [] → env.svgOk = true → env.blobThrows = none →
      (if tm then env.trespOk = false else env.respOk = false) →
      (vibe3DCode env arg tm).2
          = Except.error ("API error: "
              ++ orDefault (if tm then env.trespDetail else env.respDetail)
                           (if tm then env.trespStatusText else env.respStatusText)) ∧
      (∀ k, ¬ EOp.openChannel k ∈ (vibe3DCode env arg tm).1) ∧
      (arg = none →
        EOp.createShape env.freshId (env.boundsMaxX + 60) (env.boundsMidY - 180)
          ∈ (vibe3DCode env arg tm).1 ∧
        EOp.deleteShape env.freshId ∈ (vibe3DCode env arg tm).1) := by
  intro env arg tm hsel hsvg hblob hresp
  cases tm with
  | false =>
      simp only [if_false, Bool.false_eq_true, ite_false] at hresp ⊢
      simp only [vibe3DCode, if_neg hsel, hsvg, hblob, hresp]
      refine ⟨by simp, fun k => ?_, fun ha => ?_⟩
      · rcases arg with _ | a <;> simp [List.mem_append]
      · subst ha; simp [List.mem_append]
  | true =>
      simp only [if_true, ite_true] at hresp ⊢
      simp only [vibe3DCode, if_neg hsel, hsvg, hblob, hresp]
      refine ⟨by simp, fun k => ?_, fun ha => ?_⟩
      · rcases arg with _ | a <;> simp [List.mem_append]
      · subst ha; simp [List.mem_append]

/-- Witness for C3: a non-OK submission response in the concrete
environment deletes the created shape and opens no channel. -/
theorem claim3_non_ok_rejects_before_channel_witness :
    (vibe3DCode { envWaitFails with respOk := false, respStatusText := "Bad Gateway" } none false).2
      = Except.error "API error: Bad Gateway" ∧
    ¬ EOp.openChannel "sse"
      ∈ (vibe3DCode { envWaitFails with respOk := false, respStatusText := "Bad Gateway" } none false).1 := by
  have h := claim3_non_ok_rejects_before_channel
    { envWaitFails with respOk := false, respStatusText := "Bad Gateway" } none false
    (by decide) rfl rfl rfl
  exact ⟨h.1, h.2.1 "sse"⟩

/-- C9: whenever the selection contains at least one non-`model3d` shape
and `vibe3DCode` is invoked without an existing preview shape id, the run
creates exactly one shape — the `model3d` preview — at
`x = maxX + 60, y = midY - 180`, strictly to the right of the selection's
bounding box (`maxX + 60 > maxX`). -/
theorem claim9_creates_one_preview_right_of_selection :
    ∀ (env : V3Env) (tm : Bool) (s : VShape),
      s ∈ env.selectedShapes → ¬ s.stype = "model3d" →
      (vibe3DCode env none tm).1.countP isCreate = 1 ∧
      EOp.createShape env.freshId (env.boundsMaxX + 60) (env.boundsMidY - 180)
        ∈ (vibe3DCode env none tm).1 ∧
      env.boundsMaxX + 60 > env.boundsMaxX := by
  intro env tm s hs _
  have hsel : ¬ env.selectedShapes = [] := by
    intro h0; rw [h0] at hs; exact absurd hs (List.not_mem_nil s)
  refine ⟨?_, ?_, by omega⟩
  · simp only [vibe3DCode, if_neg hsel]
    cases tm <;>
      (repeat' split) <;> simp [List.countP_append, List.countP_cons, List.countP_nil, isCreate]
  · simp only [vibe3DCode, if_neg hsel]
    cases tm <;>
      (repeat' split) <;> simp [List.mem_append]

/-- Witness for C9: the concrete environment with one drawable shape. -/
theorem claim9_creates_one_preview_right_of_selection_witness :
    (vibe3DCode envWaitFails none false).1.countP isCreate = 1 ∧
    EOp.createShape 7 60 (-180) ∈ (vibe3DCode envWaitFails none false).1 := by
  have h := claim9_creates_one_preview_right_of_selection envWaitFails false
    ⟨"draw"⟩ (by decide) (by decide)
  exact ⟨h.1, h.2.1⟩

/-- C10: `edit3DCode` validates its selection before any export or network
work, throwing a distinct error in each failure case — empty selection, no
`model3d` selected, more than one `model3d` selected, no non-`model3d`
guiding shape selected, and missing or too-short (< 10 characters)
`threeJsCode` — and in every such case the operation trace is empty: no
shape is mutated or deleted and nothing is exported or submitted. -/
theorem claim10_edit_validates_before_work :
    (∀ env : EEnv, env.selectedShapes = [] →
      edit3DCode env = ([], Except.error "First select shapes for editing.")) ∧
    (∀ env : EEnv, ¬ env.selectedShapes = [] →
      env.selectedShapes.filter (fun s => s.stype = "model3d") = [] →
      edit3DCode env = ([], Except.error "First select a 3D model to edit.")) ∧
    (∀ env : EEnv, (env.selectedShapes.filter (fun s => s.stype = "model3d")).length > 1 →
      edit3DCode env = ([], Except.error "Select only one 3D model at a time.")) ∧
    (∀ env : EEnv, (env.selectedShapes.filter (fun s => s.stype = "model3d")).length = 1 →
      env.selectedShapes.filter (fun s => ¬ s.stype = "model3d") = [] →
      edit3DCode env = ([], Except.error "Select at least one drawing or shape to guide the editing.")) ∧
    (∀ (env : EEnv) (x : EShape) (rest : List EShape),
      env.selectedShapes.filter (fun s => s.stype = "model3d") = x :: rest →
      rest = [] →
      ¬ env.selectedShapes.filter (fun s => ¬ s.stype = "model3d") = [] →
      (¬ truthyS x.threeJsCode ∨ (x.threeJsCode.getD "").length < 10) →
      edit3DCode env = ([], Except.error "The selected 3D model does not contain valid code.")) ∧
    ([
      "First select shapes for editing.",
      "First select a 3D model to edit.",
      "Select only one 3D model at a time.",
      "Select at least one drawing or shape to guide the editing.",
      "The selected 3D model does not contain valid code."].Pairwise (fun a b => ¬ a = b)) := by
  refine ⟨?_, ?_, ?_, ?_, ?_, by decide⟩
  · intro env h
    simp [edit3DCode, h]
  · intro env hsel hm3
    simp [edit3DCode, if_neg hsel, hm3]
  · intro env h
    have hsel : ¬ env.selectedShapes = [] := by
      intro h0; rw [h0] at h; simp at h
    have hm3 : ¬ env.selectedShapes.filter (fun s => s.stype = "model3d") = [] := by
      intro h0; rw [h0] at h; simp at h
    simp only [edit3DCode]
    rw [if_neg hsel, if_neg hm3, if_pos h]
  · intro env h hnon
    have hsel : ¬ env.selectedShapes = [] := by
      intro h0; rw [h0] at h; simp at h
    have hm3 : ¬ env.selectedShapes.filter (fun s => s.stype = "model3d") = [] := by
      intro h0; rw [h0] at h; simp at h
    have hlen : ¬ (env.selectedShapes.filter (fun s => s.stype = "model3d")).length > 1 := by
      omega
    simp only [edit3DCode]
    rw [if_neg hsel, if_neg hm3, if_neg hlen, if_pos hnon]
  · intro env x rest hm3 hrest hnon hcode
    subst hrest
    have hsel : ¬ env.selectedShapes = [] := by
      intro h0; rw [h0] at hm3; simp at hm3
    have hm3ne : ¬ env.selectedShapes.filter (fun s => s.stype = "model3d") = [] := by
      rw [hm3]; simp
    have hlen : ¬ (env.selectedShapes.filter (fun s => s.stype = "model3d")).length > 1 := by
      rw [hm3]; simp
    simp only [edit3DCode]
    rw [if_neg hsel, if_neg hm3ne, if_neg hlen, if_neg hnon, hm3]
    simp only []
    rw [if_pos hcode]

/-- Witness for C10: concrete selections hitting the empty-selection check
and the short-code check. -/
theorem claim10_edit_validates_before_work_witness :
    edit3DCode { selectedShapes := [], svgOk := true, blobOk := true, respOk := true,
                 respDetail := none, respStatusText := "", waitED := Except.ok none }
      = ([], Except.error "First select shapes for editing.") ∧
    edit3DCode { selectedShapes := [⟨"model3d", 3, some "short"⟩, ⟨"draw", 4, none⟩],
                 svgOk := true, blobOk := true, respOk := true,
                 respDetail := none, respStatusText := "", waitED := Except.ok none }
      = ([], Except.error "The selected 3D model does not contain valid code.") := by
  constructor
  · exact claim10_edit_validates_before_work.1 _ rfl
  · exact claim10_edit_validates_before_work.2.2.2.2.1 _ ⟨"model3d", 3, some "short"⟩ []
      (by decide) rfl (by decide) (Or.inr (by decide))

/-! ## Metatheory of the regex matcher -/

theorem firstSome_eq_none_iff {α β : Type} (f : α → Option β) :
    ∀ l : List α, firstSome f l = none ↔ ∀ a ∈ l, f a = none := by
  intro l
  induction l with
  | nil => simp [firstSome]
  | cons a t ih =>
      constructor
      · intro h b hb
        cases hfa : f a with
        | none =>
            rcases List.mem_cons.mp hb with rfl | hb
            · exact hfa
            · simp only [firstSome, hfa] at h
              exact ih.mp h b hb
        | some v =>
            simp only [firstSome, hfa] at h
            exact absurd h (by simp)
      · intro h
        have hfa : f a = none := h a (List.mem_cons_self a t)
        simp only [firstSome, hfa]
        exact ih.mpr (fun b hb => h b (List.mem_cons_of_mem a hb))

theorem exists_of_firstSome_eq_some {α β : Type} {f : α → Option β} {b : β} :
    ∀ {l : List α}, firstSome f l = some b → ∃ a ∈ l, f a = some b := by
  intro l
  induction l with
  | nil => intro h; simp [firstSome] at h
  | cons a t ih =>
      intro h
      cases hfa : f a with
      | some v =>
          simp only [firstSome, hfa] at h
          exact ⟨a, List.mem_cons_self a t, by rw [hfa, h]⟩
      | none =>
          simp only [firstSome, hfa] at h
          obtain ⟨c, hc, hfc⟩ := ih h
          exact ⟨c, List.mem_cons_of_mem a hc, hfc⟩

theorem firstSome_isSome_of_mem {α β : Type} {f : α → Option β} {a : α} :
    ∀ {l : List α}, a ∈ l → (f a).isSome = true → (firstSome f l).isSome = true := by
  intro l
  induction l with
  | nil => intro h; simp at h
  | cons c t ih =>
      intro hmem hsome
      cases hfc : f c with
      | some v => simp [firstSome, hfc]
      | none =>
          simp only [firstSome, hfc]
          rcases List.mem_cons.mp hmem with h | h
          · rw [h] at hsome; rw [hfc] at hsome; simp at hsome
          · exact ih h hsome

/-- Every successful match hands its final position to the continuation:
the returned stop position is the stop of some continuation result. -/
theorem matchSeq_stop_sound (s : List Char) :
    ∀ (l : List RE) (p : Nat) (k : Nat → Option MRes) (r : MRes),
      matchSeq s l p k = some r → ∃ q r', k q = some r' ∧ r'.stop = r.stop := by
  intro l
  induction l with
  | nil => intro p k r h; exact ⟨p, r, h, rfl⟩
  | cons re rest ih =>
      intro p k r h
      cases re with
      | lit cs =>
          simp only [matchSeq] at h
          split at h
          · exact ih _ _ _ h
          · exact absurd h (by simp)
      | cls f =>
          simp only [matchSeq] at h
          split at h
          · exact ih _ _ _ h
          · exact absurd h (by simp)
      | star g f =>
          simp only [matchSeq] at h
          obtain ⟨n, _, hn⟩ := exists_of_firstSome_eq_some h
          exact ih _ _ _ hn
      | grp f =>
          simp only [matchSeq] at h
          obtain ⟨n, _, hn⟩ := exists_of_firstSome_eq_some h
          rcases Option.map_eq_some'.mp hn with ⟨res, hres, hmap⟩
          obtain ⟨q, r', hk, hstop⟩ := ih _ _ _ hres
          exact ⟨q, r', hk, by rw [hstop, ← hmap]⟩
      | optChar f =>
          simp only [matchSeq] at h
          split at h
          · cases h1 : matchSeq s rest (p + 1) k with
            | some v =>
                rw [h1] at h
                simp only [Option.orElse] at h
                cases h
                exact ih _ _ _ h1
            | none =>
                rw [h1] at h
                simp only [Option.orElse] at h
                exact ih _ _ _ h
          · exact ih _ _ _ h
      | bol =>
          simp only [matchSeq] at h
          split at h
          · exact ih _ _ _ h
          · exact absurd h (by simp)
      | eol =>
          simp only [matchSeq] at h
          split at h
          · exact ih _ _ _ h
          · exact absurd h (by simp)

/-- CPS decomposition of matching a concatenated pattern list. -/
theorem matchSeq_append (s : List Char) (l₁ l₂ : List RE) :
    ∀ (p : Nat) (k : Nat → Option MRes),
      matchSeq s (l₁ ++ l₂) p k = matchSeq s l₁ p (fun q => matchSeq s l₂ q k) := by
  induction l₁ with
  | nil => intro p k; rfl
  | cons re rest ih =>
      intro p k
      cases re with
      | lit cs => simp only [List.cons_append, matchSeq, List.append_eq, ih]
      | cls f => simp only [List.cons_append, matchSeq, List.append_eq, ih]
      | star g f => simp only [List.cons_append, matchSeq, List.append_eq, ih]
      | grp f => simp only [List.cons_append, matchSeq, List.append_eq, ih]
      | optChar f => simp only [List.cons_append, matchSeq, List.append_eq, ih]
      | bol => simp only [List.cons_append, matchSeq, List.append_eq, ih]
      | eol => simp only [List.cons_append, matchSeq, List.append_eq, ih]

/-! Forward (success-introduction) lemmas, one per construct. -/

theorem matchSeq_isSome_lit {s : List Char} {cs : List Char} {rest : List RE}
    {p : Nat} {k : Nat → Option MRes} (h1 : litAt s cs p = true)
    (h2 : (matchSeq s rest (p + cs.length) k).isSome = true) :
    (matchSeq s (RE.lit cs :: rest) p k).isSome = true := by
  simp only [matchSeq, h1, if_true]
  exact h2

theorem matchSeq_isSome_cls {s : List Char} {f : Char → Bool} {rest : List RE}
    {p : Nat} {k : Nat → Option MRes} (h1 : clsAt s f p = true)
    (h2 : (matchSeq s rest (p + 1) k).isSome = true) :
    (matchSeq s (RE.cls f :: rest) p k).isSome = true := by
  simp only [matchSeq, h1, if_true]
  exact h2

theorem matchSeq_isSome_star {s : List Char} {g : Bool} {f : Char → Bool} {rest : List RE}
    {p n : Nat} {k : Nat → Option MRes} (h1 : n ≤ runLen s f p)
    (h2 : (matchSeq s rest (p + n) k).isSome = true) :
    (matchSeq s (RE.star g f :: rest) p k).isSome = true := by
  simp only [matchSeq]
  apply firstSome_isSome_of_mem (a := n) _ h2
  cases g <;> simp [List.mem_range, List.mem_reverse] <;> omega

theorem matchSeq_isSome_grp {s : List Char} {f : Char → Bool} {rest : List RE}
    {p n : Nat} {k : Nat → Option MRes} (h1 : n ≤ runLen s f p)
    (h2 : (matchSeq s rest (p + n) k).isSome = true) :
    (matchSeq s (RE.grp f :: rest) p k).isSome = true := by
  simp only [matchSeq]
  apply firstSome_isSome_of_mem (a := n)
  · simp [List.mem_range]; omega
  · simp [Option.isSome_map']
    exact h2

theorem matchSeq_isSome_optChar_skip {s : List Char} {f : Char → Bool} {rest : List RE}
    {p : Nat} {k : Nat → Option MRes}
    (h2 : (matchSeq s rest p k).isSome = true) :
    (matchSeq s (RE.optChar f :: rest) p k).isSome = true := by
  simp only [matchSeq]
  split
  · cases h1 : matchSeq s rest (p + 1) k <;> simp [Option.orElse, h1, h2]
  · exact h2

theorem matchSeq_isSome_bol {s : List Char} {rest : List RE}
    {p : Nat} {k : Nat → Option MRes} (h1 : bolAt s p = true)
    (h2 : (matchSeq s rest p k).isSome = true) :
    (matchSeq s (RE.bol :: rest) p k).isSome = true := by
  simp only [matchSeq, h1, if_true]
  exact h2

theorem matchSeq_isSome_eol {s : List Char} {rest : List RE}
    {p : Nat} {k : Nat → Option MRes} (h1 : eolAt s p = true)
    (h2 : (matchSeq s rest p k).isSome = true) :
    (matchSeq s (RE.eol :: rest) p k).isSome = true := by
  simp only [matchSeq, h1, if_true]
  exact h2

/-- A pattern whose first element is a literal starting with a character
that does not occur in `s` matches nowhere. -/
theorem matchAt_none_of_head_lit {s : List Char} {c : Char} {cs : List Char}
    {rest : List RE} {p : Nat} (hc : ¬ c ∈ s) :
    matchAt s (RE.lit (c :: cs) :: rest) p = none := by
  unfold matchAt
  simp only [matchSeq]
  rw [if_neg]
  intro hlit
  have hpref : (c :: cs) <+: s.drop p := List.isPrefixOf_iff_prefix.mp hlit
  rcases hpref with ⟨t, ht⟩
  have : c ∈ s.drop p := by rw [← ht]; exact List.mem_append_left _ (List.mem_cons_self c cs)
  exact hc (List.drop_subset p s this)

theorem findFrom_none_of_head_lit {s : List Char} {c : Char} {cs : List Char}
    {rest : List RE} {start : Nat} (hc : ¬ c ∈ s) :
    findFrom s (RE.lit (c :: cs) :: rest) start = none := by
  unfold findFrom
  rw [firstSome_eq_none_iff]
  intro p _
  rw [matchAt_none_of_head_lit hc]
  rfl

theorem capOf_none_of_head_lit {s : List Char} {c : Char} {cs : List Char}
    {rest : List RE} (hc : ¬ c ∈ s) :
    capOf s (RE.lit (c :: cs) :: rest) = none := by
  unfold capOf
  rw [findFrom_none_of_head_lit hc]
  rfl

/-- With no match anywhere, a global replace is the identity. -/
theorem replaceAll_of_no_match {s : List Char} {pats : List RE} {repl : List Char}
    (h : findFrom s pats 0 = none) : replaceAll s pats repl = s := by
  unfold replaceAll
  have h2 : s.length + 2 = (s.length + 1) + 1 := rfl
  rw [h2]
  simp only [replGo, h, List.drop_zero]

/-- A single match that starts at 0 and covers the whole input makes a
global replace by the empty string erase everything. -/
theorem replaceAll_of_full_match {s : List Char} {pats : List RE} {r : MRes}
    (hm : findFrom s pats 0 = some (0, r)) (h0 : 0 < r.stop)
    (hstop : s.length ≤ r.stop) (hnone : findFrom s pats r.stop = none) :
    replaceAll s pats [] = [] := by
  unfold replaceAll
  have h2 : s.length + 2 = (s.length + 1) + 1 := rfl
  rw [h2]
  simp only [replGo, hm, hnone]
  rw [if_neg (by omega)]
  simp [List.drop_eq_nil_iff.mpr hstop]

theorem capNE_some {o : Option (List Char)} {c : List Char}
    (hc : o = some c) (hne : ¬ c = []) : capNE o = some c := by
  subst hc
  cases c with
  | nil => exact absurd rfl hne
  | cons a t => rfl

theorem capNE_none {o : Option (List Char)}
    (h : ∀ c, o = some c → c = []) : capNE o = none := by
  cases o with
  | none => rfl
  | some c => rw [h c rfl]; rfl

/-- C6 counterexample: on the input `"```javascript\n```"` a
javascript-tagged fenced block is present (the matcher captures its empty
contents), yet the sanitizer does not select those contents as its
extraction source: the truthiness test `jsMatch && jsMatch[1]` fails on the
empty capture, every later pattern fails the same way, and the raw input is
returned unchanged instead of the block's (empty) contents. -/
theorem claim6_counterexample_empty_block_falls_through :
    capOf ("```javascript\n```".toList) jsPattern = some [] ∧
    processThreeJsCode ("```javascript\n```".toList) = "```javascript\n```".toList ∧
    ¬ ("```javascript\n```".toList = ([] : List Char)) := by
  refine ⟨by decide, by decide, by decide⟩

/-- C6 (amended): `processThreeJsCode` is a total deterministic function;
its extraction stage selects, in fixed order, (a) the contents of a
```` ```javascript ````-tagged fenced block if present with non-empty
contents, else (b) the contents of any fenced code block if non-empty, else
(c) the contents of a `<script>` tag if non-empty, else (d) the raw text
unchanged (an empty capture is falsy in JS and falls through). It never
fails, and when no pattern applies at all — no non-empty fenced-block or
script capture and no occurrence of any of the nine import/require rewrite
patterns — it returns its input unmodified. -/
theorem claim6_extraction_priority :
    ∀ s : List Char,
      (∀ c, capOf s jsPattern = some c → ¬ c = [] → extractCode s = c) ∧
      ((∀ c, capOf s jsPattern = some c → c = []) →
        ∀ c, capOf s codeBlockPattern = some c → ¬ c = [] → extractCode s = c) ∧
      ((∀ c, capOf s jsPattern = some c → c = []) →
        (∀ c, capOf s codeBlockPattern = some c → c = []) →
        ∀ c, capOf s scriptTagPattern = some c → ¬ c = [] → extractCode s = c) ∧
      ((∀ c, capOf s jsPattern = some c → c = []) →
        (∀ c, capOf s codeBlockPattern = some c → c = []) →
        (∀ c, capOf s scriptTagPattern = some c → c = []) →
        extractCode s = s) ∧
      ((∀ c, capOf s jsPattern = some c → c = []) →
        (∀ c, capOf s codeBlockPattern = some c → c = []) →
        (∀ c, capOf s scriptTagPattern = some c → c = []) →
        findFrom s importFromPattern 0 = none →
        findFrom s importStarAsPattern 0 = none →
        findFrom s importBarePattern 0 = none →
        findFrom s constRequirePattern 0 = none →
        findFrom s importThreeStarPattern 0 = none →
        findFrom s importOrbitPattern 0 = none →
        findFrom s importBracesPattern 0 = none →
        findFrom s importDefaultPattern 0 = none →
        findFrom s threeOrbitPattern 0 = none →
        processThreeJsCode s = s) := by
  intro s
  refine ⟨?_, ?_, ?_, ?_, ?_⟩
  · intro c hc hne
    unfold extractCode
    rw [capNE_some hc hne]
  · intro hjs c hc hne
    unfold extractCode
    rw [capNE_none hjs, capNE_some hc hne]
  · intro hjs hcb c hc hne
    unfold extractCode
    rw [capNE_none hjs, capNE_none hcb, capNE_some hc hne]
  · intro hjs hcb hsc
    unfold extractCode
    rw [capNE_none hjs, capNE_none hcb, capNE_none hsc]
  · intro hjs hcb hsc h1 h2 h3 h4 h5 h6 h7 h8 h9
    have hext : extractCode s = s := by
      unfold extractCode
      rw [capNE_none hjs, capNE_none hcb, capNE_none hsc]
    simp only [processThreeJsCode, hext, replaceAll_of_no_match h1,
      replaceAll_of_no_match h2, replaceAll_of_no_match h3, replaceAll_of_no_match h4,
      replaceAll_of_no_match h5, replaceAll_of_no_match h6, replaceAll_of_no_match h7,
      replaceAll_of_no_match h8, replaceAll_of_no_match h9]

/-- Witness for C6 (amended): a tagged block's non-empty contents are
selected, and an input matching nothing is returned unmodified. -/
theorem claim6_extraction_priority_witness :
    extractCode ("```javascript\nxy\n```".toList) = "xy\n".toList ∧
    processThreeJsCode ("hello world".toList) = "hello world".toList := by
  constructor
  · exact (claim6_extraction_priority _).1 ("xy\n".toList) (by decide) (by decide)
  · exact (claim6_extraction_priority _).2.2.2.2
      (fun c hc => by rw [show capOf ("hello world".toList) jsPattern = none from by decide] at hc; cases hc)
      (fun c hc => by rw [show capOf ("hello world".toList) codeBlockPattern = none from by decide] at hc; cases hc)
      (fun c hc => by rw [show capOf ("hello world".toList) scriptTagPattern = none from by decide] at hc; cases hc)
      (by decide) (by decide) (by decide) (by decide) (by decide)
      (by decide) (by decide) (by decide) (by decide)

theorem importLine_decomp (x : List Char) :
    importLine x = "import".toList ++ (' ' :: (x ++ " from \"three\"".toList)) := by
  simp [importLine]

theorem importLine_decomp2 (x : List Char) :
    importLine x = ("import ".toList ++ x ++ [' ']) ++ "from \"three\"".toList := by
  simp [importLine]

theorem importLine_length (x : List Char) :
    (importLine x).length = 20 + x.length := by
  have h1 : ("import ".toList).length = 7 := rfl
  have h2 : (" from \"three\"".toList).length = 13 := rfl
  simp [importLine, h1, h2]
  omega

theorem importLine_drop7 (x : List Char) :
    (importLine x).drop 7 = x ++ " from \"three\"".toList := by
  rw [importLine]
  rw [List.append_assoc]
  exact List.drop_left' rfl

theorem importLine_drop8 (x : List Char) :
    (importLine x).drop (8 + x.length) = "from \"three\"".toList := by
  rw [importLine_decomp2]
  apply List.drop_left'
  have h1 : ("import ".toList).length = 7 := rfl
  simp [h1]
  omega

theorem importLine_drop8k (x : List Char) (k : Nat) :
    (importLine x).drop (8 + x.length + k) = ("from \"three\"".toList).drop k := by
  rw [← List.drop_drop, importLine_drop8]


theorem mem_importLine {x : List Char} {c : Char} (h : c ∈ importLine x) :
    c ∈ "import ".toList ∨ c ∈ x ∨ c ∈ " from \"three\"".toList := by
  rw [importLine] at h
  rcases List.mem_append.mp h with h1 | h1
  · rcases List.mem_append.mp h1 with h2 | h2
    · exact Or.inl h2
    · exact Or.inr (Or.inl h2)
  · exact Or.inr (Or.inr h1)

theorem importLine_no_lineterm {x : List Char}
    (hx : ∀ c ∈ x, plainChar c = true) :
    ∀ c ∈ importLine x, isLineTermJS c = false := by
  intro c hc
  rcases mem_importLine hc with h | h | h
  · exact (show ∀ d ∈ "import ".toList, isLineTermJS d = false by decide) c h
  · have := hx c h
    simp only [plainChar, decide_eq_true_eq] at this
    push_neg at this
    exact Bool.not_eq_true _ |>.mp this.1
  · exact (show ∀ d ∈ " from \"three\"".toList, isLineTermJS d = false by decide) c h

theorem importLine_no_backtick {x : List Char}
    (hx : ∀ c ∈ x, plainChar c = true) :
    ¬ '`' ∈ importLine x := by
  intro hc
  rcases mem_importLine hc with h | h | h
  · exact (show ¬ '`' ∈ "import ".toList by decide) h
  · have := hx _ h
    simp [plainChar] at this
  · exact (show ¬ '`' ∈ " from \"three\"".toList by decide) h

theorem importLine_no_lt {x : List Char}
    (hx : ∀ c ∈ x, plainChar c = true) :
    ¬ '<' ∈ importLine x := by
  intro hc
  rcases mem_importLine hc with h | h | h
  · exact (show ¬ '<' ∈ "import ".toList by decide) h
  · have := hx _ h
    simp [plainChar] at this
  · exact (show ¬ '<' ∈ " from \"three\"".toList by decide) h

theorem takeWhile_append_length_ge {f : Char → Bool} :
    ∀ (x : List Char) (a : Char) (t : List Char),
      (∀ c ∈ x, f c = true) → f a = true →
      x.length + 1 ≤ ((x ++ a :: t).takeWhile f).length := by
  intro x
  induction x with
  | nil =>
      intro a t _ ha
      simp [List.takeWhile_cons, ha]
  | cons c x' ih =>
      intro a t hx ha
      have hc : f c = true := hx c (List.mem_cons_self c x')
      simp only [List.cons_append, List.takeWhile_cons, hc, if_true, ite_true,
        List.length_cons]
      have := ih a t (fun b hb => hx b (List.mem_cons_of_mem c hb)) ha
      omega


theorem plainChar_isDot {c : Char} (h : plainChar c = true) : isDotJS c = true := by
  simp only [plainChar, decide_eq_true_eq] at h
  push_neg at h
  simp [isDotJS, h.1]

theorem importLine_drop6 (x : List Char) :
    (importLine x).drop 6 = ' ' :: (x ++ " from \"three\"".toList) := by
  rw [importLine_decomp]
  exact List.drop_left' rfl

/-- The explicit form of `importFromPattern`. -/
theorem importFromPattern_explicit :
    importFromPattern =
      [RE.bol, RE.lit ("import".toList), RE.cls isSpaceJS, RE.star true isSpaceJS,
       RE.star false isDotJS, RE.lit ("from".toList), RE.cls isSpaceJS,
       RE.star true isSpaceJS, RE.cls isQuoteJS, RE.star false isDotJS,
       RE.cls isQuoteJS, RE.optChar (fun c => c = ';'), RE.star true isSpaceJS,
       RE.eol] := rfl

/-- The first `^import ... from '...'$` pattern matches the whole of an
`import <x> from "three"` line, starting at position 0. -/
theorem importFrom_matchAt_zero_isSome {x : List Char}
    (hx : ∀ c ∈ x, plainChar c = true) :
    (matchAt (importLine x) importFromPattern 0).isSome = true := by
  unfold matchAt
  rw [importFromPattern_explicit]
  apply matchSeq_isSome_bol (by rfl)
  apply @matchSeq_isSome_lit (importLine x) ("import".toList) _ _ _
  · unfold litAt
    rw [List.drop_zero, importLine_decomp, List.isPrefixOf_iff_prefix]
    exact List.prefix_append _ _
  show (matchSeq (importLine x) _ 6 _).isSome = true
  apply matchSeq_isSome_cls
  · unfold clsAt
    rw [importLine_drop6]
    rfl
  apply matchSeq_isSome_star (n := 0) (Nat.zero_le _)
  show (matchSeq (importLine x) _ 7 _).isSome = true
  apply matchSeq_isSome_star (n := x.length + 1)
  · unfold runLen
    rw [importLine_drop7]
    show x.length + 1 ≤ (List.takeWhile isDotJS (x ++ ' ' :: "from \"three\"".toList)).length
    exact takeWhile_append_length_ge x ' ' _ (fun c h => plainChar_isDot (hx c h)) (by decide)
  have e1 : 7 + (x.length + 1) = 8 + x.length := by omega
  rw [e1]
  apply @matchSeq_isSome_lit (importLine x) ("from".toList) _ _ _
  · unfold litAt
    rw [importLine_drop8]
    rw [show "from \"three\"".toList = "from".toList ++ " \"three\"".toList from rfl,
      List.isPrefixOf_iff_prefix]
    exact List.prefix_append _ _
  show (matchSeq (importLine x) _ (8 + x.length + 4) _).isSome = true
  apply matchSeq_isSome_cls
  · unfold clsAt
    rw [importLine_drop8k x 4]
    decide
  show (matchSeq (importLine x) _ (8 + x.length + 5) _).isSome = true
  apply matchSeq_isSome_star (n := 0) (Nat.zero_le _)
  show (matchSeq (importLine x) _ (8 + x.length + 5) _).isSome = true
  apply matchSeq_isSome_cls
  · unfold clsAt
    rw [importLine_drop8k x 5]
    decide
  show (matchSeq (importLine x) _ (8 + x.length + 6) _).isSome = true
  apply matchSeq_isSome_star (n := 5)
  · unfold runLen
    rw [importLine_drop8k x 6]
    decide
  show (matchSeq (importLine x) _ (8 + x.length + 11) _).isSome = true
  apply matchSeq_isSome_cls
  · unfold clsAt
    rw [importLine_drop8k x 11]
    decide
  show (matchSeq (importLine x) _ (8 + x.length + 12) _).isSome = true
  apply matchSeq_isSome_optChar_skip
  apply matchSeq_isSome_star (n := 0) (Nat.zero_le _)
  show (matchSeq (importLine x) _ (8 + x.length + 12) _).isSome = true
  apply matchSeq_isSome_eol
  · unfold eolAt
    rw [importLine_drop8k x 12]
    decide
  rfl


/-- Any match of `importFromPattern` on an import line ends at the end of
the input (the `$` anchor, with no line terminator present). -/
theorem importFrom_match_ends {x : List Char}
    (hx : ∀ c ∈ x, plainChar c = true) {r : MRes}
    (h : matchAt (importLine x) importFromPattern 0 = some r) :
    (importLine x).drop r.stop = [] := by
  have hsplit : importFromPattern =
      [RE.bol, RE.lit ("import".toList), RE.cls isSpaceJS, RE.star true isSpaceJS,
       RE.star false isDotJS, RE.lit ("from".toList), RE.cls isSpaceJS,
       RE.star true isSpaceJS, RE.cls isQuoteJS, RE.star false isDotJS,
       RE.cls isQuoteJS, RE.optChar (fun c => c = ';'), RE.star true isSpaceJS]
      ++ [RE.eol] := rfl
  unfold matchAt at h
  rw [hsplit, matchSeq_append] at h
  obtain ⟨q, r', hk, hstop⟩ := matchSeq_stop_sound _ _ _ _ _ h
  simp only [matchSeq] at hk
  split at hk
  case isTrue heol =>
    have hr' : r' = ⟨q, none⟩ := by
      cases hk
      rfl
    have hq : r.stop = q := by rw [← hstop, hr']
    rw [hq]
    unfold eolAt at heol
    cases hdrop : (importLine x).drop q with
    | nil => rfl
    | cons c t =>
        rw [hdrop] at heol
        have hcmem : c ∈ importLine x := by
          apply List.drop_subset q
          rw [hdrop]
          exact List.mem_cons_self c t
        have heol2 : isLineTermJS c = true := heol
        have := importLine_no_lineterm hx c hcmem
        rw [this] at heol2
        exact absurd heol2 (by simp)
  case isFalse => exact absurd hk (by simp)

/-- Replacing `importFromPattern` globally by the empty string erases an
entire `import <x> from "three"` line. -/
theorem importFrom_replace_erases {x : List Char}
    (hx : ∀ c ∈ x, plainChar c = true) :
    replaceAll (importLine x) importFromPattern [] = [] := by
  obtain ⟨r, hr⟩ := Option.isSome_iff_exists.mp (importFrom_matchAt_zero_isSome hx)
  have hdrop : (importLine x).drop r.stop = [] := importFrom_match_ends hx hr
  have hlen : (importLine x).length ≤ r.stop := List.drop_eq_nil_iff.mp hdrop
  have hL := importLine_length x
  have hpos : 0 < r.stop := by omega
  have hfind0 : findFrom (importLine x) importFromPattern 0 = some (0, r) := by
    unfold findFrom
    rw [show (importLine x).length + 1 - 0 = (importLine x).length + 1 from rfl]
    rw [List.range'_succ]
    simp only [firstSome, hr, Option.map_some']
  have hfindstop : findFrom (importLine x) importFromPattern r.stop = none := by
    unfold findFrom
    rcases Nat.lt_or_ge r.stop ((importLine x).length + 1) with hlt | hge
    · have hq : r.stop = (importLine x).length := by omega
      rw [hq]
      rw [show (importLine x).length + 1 - (importLine x).length = 1 from by omega]
      rw [List.range'_one]
      have hmA : matchAt (importLine x) importFromPattern (importLine x).length = none := by
        rw [importFromPattern_explicit]
        unfold matchAt
        simp only [matchSeq]
        rw [if_neg]
        simp only [bolAt, Bool.or_eq_true, beq_iff_eq]
        push_neg
        constructor
        · omega
        · rw [show (importLine x).length - 1 = 8 + x.length + 11 from by omega,
            importLine_drop8k x 11]
          simp
      simp only [firstSome, hmA, Option.map_none']
    · rw [show (importLine x).length + 1 - r.stop = 0 from by omega]
      rfl
  exact replaceAll_of_full_match hfind0 hpos hlen hfindstop

/-- The sanitizer maps a lone `import <x> from "three"` line (with `x` free
of line terminators, quotes, backticks and `<`) to the empty string. -/
theorem processThreeJsCode_importLine {x : List Char}
    (hx : ∀ c ∈ x, plainChar c = true) :
    processThreeJsCode (importLine x) = [] := by
  have hbt := importLine_no_backtick hx
  have hlt := importLine_no_lt hx
  have hjs : capOf (importLine x) jsPattern = none := capOf_none_of_head_lit hbt
  have hcb : capOf (importLine x) codeBlockPattern = none := capOf_none_of_head_lit hbt
  have hsc : capOf (importLine x) scriptTagPattern = none := capOf_none_of_head_lit hlt
  have hext : extractCode (importLine x) = importLine x := by
    unfold extractCode
    rw [hjs, hcb, hsc]
    rfl
  have h1 : replaceAll (importLine x) importFromPattern [] = [] :=
    importFrom_replace_erases hx
  simp only [processThreeJsCode, hext, h1]
  rfl

/-- C7 counterexample, refuting both halves of the claim. First, on the
input `"```javascript\ncode\n```"` the sanitizer returns `"code\n"` — the
capture of the fenced block keeps the newline before the closing fence —
not `"code"` as the claim states. Second, the claim's "on any input it
removes all lines of the form `import ... from \"three\"`" is false: on
`spliceInput`, deleting the embedded `import * as THREE from "three";`
mid-line joins the surrounding text into the brand-new line
`import y from "three"` — the whole output is a non-empty line of exactly
that form. -/
theorem claim7_counterexample_newline_and_spliced_import :
    (processThreeJsCode ("```javascript\ncode\n```".toList) = "code\n".toList ∧
     ¬ processThreeJsCode ("```javascript\ncode\n```".toList) = "code".toList) ∧
    (processThreeJsCode spliceInput = importLine ("y".toList) ∧
     ¬ importLine ("y".toList) = []) := by
  refine ⟨⟨by decide, by decide⟩, by decide, by decide⟩

/-- C7 (amended): on the input `"```javascript\ncode\n```"` the sanitizer
returns exactly `"code\n"` (the fenced contents, trailing newline
included). Import-from-three stripping holds in qualified form, not on
every input: a fenced block whose first line is
`import * as THREE from "three";` comes back with that line erased (only
its newline remains), and any input consisting of a single line
`import <x> from "three"` — `x` free of JS line terminators, quotes,
backticks and `<` — is mapped to the empty string; but because the later
rewrites delete mid-line occurrences, the sanitizer can also splice the
surrounding text into a new `import ... from "three"` line, as on
`spliceInput`, whose output is itself such a line. -/
theorem claim7_sanitizer_extracts_and_strips_imports :
    processThreeJsCode ("```javascript\ncode\n```".toList) = "code\n".toList ∧
    processThreeJsCode
        ("```javascript\nimport * as THREE from \"three\";\ncode\n```".toList)
      = "\ncode\n".toList ∧
    (∀ x : List Char, (∀ c ∈ x, plainChar c = true) →
      processThreeJsCode (importLine x) = []) ∧
    processThreeJsCode spliceInput = importLine ("y".toList) := by
  refine ⟨by decide, by decide, fun x hx => processThreeJsCode_importLine hx, by decide⟩

/-- Witness for C7 (amended): the line `import * as THREE from "three"`
is erased entirely. -/
theorem claim7_sanitizer_extracts_and_strips_imports_witness :
    processThreeJsCode (importLine ("* as THREE".toList)) = [] :=
  claim7_sanitizer_extracts_and_strips_imports.2.2.1 ("* as THREE".toList) (by decide)

end VibeDraw
